import Mathlib

/-!
Shallow embedding of the CIP-DOC-Uploader conversion pipeline
(`src/converters.py` and the orchestration boundary in `src/app.py`),
together with theorems settling the frozen specification claims.

Modelling conventions:
* A spreadsheet cell is `Cell`: missing (`NaN`/`None`), a string, a Python
  `int`, a Python `float` (modelled exactly as a rational), or a date-time
  (carried as whole days relative to 1899-12-30).
* A loaded table is `DataFrame` (column labels plus rows of cells).
  Spreadsheet byte deserialization (pandas `read_excel`, engine selection)
  is an external concern; functions that read files in Python take
  already-loaded tables here.
* Character predicates (`isalpha`, `isalnum`, whitespace, `\w`) are
  modelled over ASCII.
-/

namespace CIPDoc

/-- Python whitespace characters recognised by `str.strip` (ASCII subset). -/
def pyIsSpace (c : Char) : Bool :=
  c = ' ' || c = '\t' || c = '\n' || c = '\x0d' || c = '\x0b' || c = '\x0c'

/-- `str.strip()` on a character list. -/
def pyStripChars (l : List Char) : List Char :=
  ((l.dropWhile pyIsSpace).reverse.dropWhile pyIsSpace).reverse

/-- `str.strip()`. -/
def pyStrip (s : String) : String :=
  String.mk (pyStripChars s.data)

/-- `str.upper()` via a character map (ASCII). -/
def pyUpper (s : String) : String :=
  String.mk (s.data.map Char.toUpper)

/-- `str.lower()` via a character map (ASCII). -/
def pyLower (s : String) : String :=
  String.mk (s.data.map Char.toLower)

/-- Is `p` a leading fragment of `l`? (Python slice comparison helper.) -/
def leadsChars : List Char → List Char → Bool
  | [], _ => true
  | _ :: _, [] => false
  | a :: as, b :: bs => a = b && leadsChars as bs

/-- Python's substring test `needle in hay` on character lists
(an empty needle always succeeds). -/
def containsSub : List Char → List Char → Bool
  | needle, [] => needle.isEmpty
  | needle, c :: t => leadsChars needle (c :: t) || containsSub needle t

/-- Python's substring test `needle in hay` on strings. -/
def strContains (hay needle : String) : Bool :=
  containsSub needle.data hay.data

/-- Value of a digit run, most significant first. -/
def digitsToNat (l : List Char) : Nat :=
  l.foldl (fun n c => 10 * n + (c.toNat - 48)) 0

/-- A spreadsheet cell as pandas presents it to the converters. -/
inductive Cell where
  | blank
  | str (s : String)
  | int (n : Int)
  | float (q : ℚ)
  | date (days : Int)
deriving DecidableEq, Repr

/-- `pd.isna` on a cell. -/
def Cell.isna : Cell → Bool
  | .blank => true
  | _ => false

/-- Python truthiness (`not value` is the negation of this). -/
def Cell.pyTruthy : Cell → Bool
  | .blank => false
  | .str s => s ≠ ""
  | .int n => n ≠ 0
  | .float q => q ≠ 0
  | .date _ => true

/-- A loaded table: ordered column labels and rows of cells. -/
structure DataFrame where
  cols : List String
  rows : List (List Cell)
deriving DecidableEq, Repr

/-- pandas `df.empty`: true when either axis has length zero. -/
def DataFrame.emptyDf (df : DataFrame) : Bool :=
  df.rows.isEmpty || df.cols.isEmpty

/-- `row.isna().all()`. -/
def rowAllNa (row : List Cell) : Bool :=
  row.all Cell.isna

/-- Cell lookup by column label (`row[name]` via the first matching label;
a label absent from the frame reads as `None`). -/
def getCol (df : DataFrame) (row : List Cell) (name : String) : Cell :=
  match df.cols.indexOf? name with
  | some i => row.getD i .blank
  | none => .blank

/-! ## File sequencing (`extract_file_number`, `sort_files_by_sequence`) -/

/-- `filename.split('.')[0]`: the part of the name before the first dot. -/
def splitHeadDot (s : String) : String :=
  String.mk (s.data.takeWhile (fun c => c ≠ '.'))

/-- Leftmost match of the regex `\((\d+)\)`: scan for a `(`, take the maximal
digit run after it, and require a `)` immediately following. -/
def parenNumber : List Char → Option Nat
  | [] => none
  | c :: rest =>
    if c = '(' then
      let ds := rest.takeWhile Char.isDigit
      if ds ≠ [] ∧ (rest.drop ds.length).headD ' ' = ')' then
        some (digitsToNat ds)
      else parenNumber rest
    else parenNumber rest

/-- `extract_file_number` (converters.py:13): sequence token from the part of
the filename before the first dot, defaulting to 0. -/
def extract_file_number (filename : String) : Nat :=
  (parenNumber (splitHeadDot filename).data).getD 0

/-- Comparison used to model Python's stable `list.sort(key=...)`: files are
annotated with their original position, and the stable sort is the sort by
the (sequence number, original position) lexicographic order. -/
def fileLe {α : Type} (a b : Nat × String × α) : Prop :=
  extract_file_number a.2.1 < extract_file_number b.2.1 ∨
    (extract_file_number a.2.1 = extract_file_number b.2.1 ∧ a.1 ≤ b.1)

instance {α : Type} : DecidableRel (fileLe (α := α)) := fun a b => by
  unfold fileLe; exact inferInstance

instance {α : Type} : IsTotal (Nat × String × α) fileLe :=
  ⟨by intro a b; unfold fileLe; omega⟩

instance {α : Type} : IsTrans (Nat × String × α) fileLe :=
  ⟨by intro a b c; unfold fileLe; omega⟩

/-- The position-annotated stable sort underlying `sort_files_by_sequence`. -/
def sortFilesAux {α : Type} (files : List (String × α)) :
    List (Nat × String × α) :=
  List.insertionSort fileLe files.enum

/-- `sort_files_by_sequence` (converters.py:25): stable ascending sort of the
uploads by extracted sequence number (Python's `list.sort` is stable; it is
modelled as the lexicographic sort on (key, original position)). -/
def sort_files_by_sequence {α : Type} (files : List (String × α)) :
    List (String × α) :=
  (sortFilesAux files).map (fun p => p.2)

/-! ## Multi-file merge (`merge_excel_files`) -/

/-- The repeated-header keyword set of `merge_excel_files` (converters.py:421). -/
def mergeHeaderKeywords : List String :=
  ["brc", "sb", "date", "number", "port", "invoice", "currency", "realization"]

/-- Number of string cells of a row whose lower-cased text contains one of the
merge header keywords (converters.py:416-422). -/
def keywordCellCount (row : List Cell) : Nat :=
  (row.filter fun c =>
    match c with
    | .str s => mergeHeaderKeywords.any (fun k => strContains (pyLower s) k)
    | _ => false).length

/-- Contribution of a file after the first during the merge
(converters.py:408-437): nothing if it has no rows; all rows minus the first
if more than 3 cells look like headers; otherwise all rows. -/
def mergeTailFile (df : DataFrame) : List (List Cell) :=
  match df.rows with
  | [] => []
  | r0 :: rest => if 3 < keywordCellCount r0 then rest else r0 :: rest

/-- `merge_excel_files` (converters.py:368), with file loading abstracted to
already-decoded tables: sequence the uploads, keep the first file's rows
unconditionally, apply the repeated-header rule to each later file, and
concatenate.  (pandas `concat` would union column labels of the inputs; only
the first file's labels are kept here, which is immaterial to row counts and
to every property proved below.) -/
def merge_excel_files (files : List (String × DataFrame)) :
    Except String DataFrame :=
  match sort_files_by_sequence files with
  | [] => .error "No files provided"
  | (_, first) :: others =>
    .ok ⟨first.cols, first.rows ++ (others.map (fun fd => mergeTailFile fd.2)).flatten⟩

/-! ## Currency resolution (`get_currency_code`) -/

/-- The currency synonym table (converters.py:286-349), in source order. -/
def currency_map : List (String × String) :=
  [("US DOLLARS", "USD"), ("USD", "USD"), ("US DOLLAR", "USD"),
   ("U.S. DOLLAR", "USD"), ("U.S. DOLLARS", "USD"), ("DOLLAR", "USD"),
   ("DOLLARS", "USD"),
   ("EURO", "EUR"), ("EUROS", "EUR"), ("EUR", "EUR"),
   ("POUND", "GBP"), ("POUNDS", "GBP"), ("BRITISH POUND", "GBP"),
   ("GBP", "GBP"),
   ("YEN", "JPY"), ("JAPANESE YEN", "JPY"), ("JPY", "JPY"),
   ("AUSTRALIAN DOLLAR", "AUD"), ("AUD", "AUD"),
   ("CANADIAN DOLLAR", "CAD"), ("CAD", "CAD"),
   ("SWISS FRANC", "CHF"), ("CHF", "CHF"),
   ("YUAN", "CNY"), ("CHINESE YUAN", "CNY"), ("RENMINBI", "CNY"),
   ("CNY", "CNY"),
   ("INDIAN RUPEE", "INR"), ("RUPEE", "INR"), ("RUPES", "INR"),
   ("RS", "INR"), ("₹", "INR"), ("INR", "INR"),
   ("SINGAPORE DOLLAR", "SGD"), ("SGD", "SGD"),
   ("HONG KONG DOLLAR", "HKD"), ("HKD", "HKD"),
   ("NEW ZEALAND DOLLAR", "NZD"), ("NZD", "NZD"),
   ("SWEDISH KRONA", "SEK"), ("SEK", "SEK"),
   ("NORWEGIAN KRONE", "NOK"), ("NOK", "NOK"),
   ("DANISH KRONE", "DKK"), ("DKK", "DKK")]

/-- `str(x)` on a cell.  A Python float prints in shortest round-trip form;
integral floats print as `n.0` and that is the only case relied upon (the
non-integral rendering here is a plain decimal via `ℚ`'s `toString`).
`str` of a timestamp prints its calendar date; only the date part matters
anywhere downstream, rendered here as the serial day count. -/
def pyStr : Cell → String
  | .blank => "nan"
  | .str s => s
  | .int n => toString n
  | .float q => if q.den = 1 then toString q.num ++ ".0" else toString q
  | .date d => "Timestamp(" ++ toString d ++ ")"

/-- The normalised query text of `get_currency_code`:
`str(x).strip().upper()`. -/
def currencyNorm (currency_name : Cell) : String :=
  pyUpper (pyStrip (pyStr currency_name))

/-- `get_currency_code` (converters.py:276): blank guard, normalise, exact
lookup, first bidirectional substring match in table order, then the
already-a-code check (both of whose branches return the normalised query). -/
def get_currency_code (currency_name : Cell) : String :=
  if !currency_name.pyTruthy || currency_name.isna then ""
  else
    let currency_str := currencyNorm currency_name
    if currency_str = "" then ""
    else
      match currency_map.find? (fun kc => kc.1 == currency_str) with
      | some kc => kc.2
      | none =>
        match currency_map.find? (fun kc =>
            strContains currency_str kc.1 || strContains kc.1 currency_str) with
        | some kc => kc.2
        | none =>
          if currency_str.length = 3 ∧ currency_str.data.all Char.isAlpha ∧
              currency_str.data.all Char.isUpper then
            currency_str
          else currency_str

/-! ## Port resolution (`get_port_code`) -/

/-- Regex word character `\w` (ASCII model). -/
def isWordChar (c : Char) : Bool :=
  c.isAlphanum || c = '_'

/-- An ASCII upper-case letter, the regex class `[A-Z]`. -/
def isUC (c : Char) : Bool :=
  'A' ≤ c && c ≤ 'Z'

/-- The maximal `\w+` runs of a character list, in order: the matches of
`re.findall(r'\b\w+\b', s)`. -/
def wordTokens (l : List Char) : List (List Char) :=
  let p := l.foldr
    (fun c (acc : List (List Char) × List Char) =>
      if isWordChar c then (acc.1, c :: acc.2)
      else (if acc.2.isEmpty then acc.1 else acc.2 :: acc.1, []))
    ([], [])
  if p.2.isEmpty then p.1 else p.2 :: p.1

/-- `re.search(r'\b(\d{6})\b', s)`: the first maximal word run that is exactly
six digits. -/
def sixDigitToken (l : List Char) : Option (List Char) :=
  (wordTokens l).find? (fun t => t.length == 6 && t.all Char.isDigit)

/-- The hard-coded well-known-location table of `get_port_code`
(converters.py:203-212), in source order. -/
def portCommonKeywords : List (String × String) :=
  [("NHAVA SHEVA", "INNSA1"), ("JNCH", "INNSA1"), ("SAHAR ANDHERI", "INBOM4"),
   ("SAHAR, ANDHERI", "INBOM4"), ("MUMBAI AIRPORT", "INBOM4"),
   ("AIR CARGO SAHAR", "INBOM4"), ("400707", "INNSA1"), ("400099", "INBOM4")]

/-- The fixed fuzzy-phrase table of `get_port_code` (converters.py:255-261). -/
def portFuzzyMatches : List (String × String) :=
  [("JNCH, NHAVA SHEVA", "INNSA1"), ("NHAVA SHEVA PORT", "INNSA1"),
   ("SAHAR AIR CARGO", "INBOM4"), ("ANDHERI AIR CARGO", "INBOM4"),
   ("MUMBAI SAHAR", "INBOM4")]

/-- Score of one mapping alias against the query (converters.py:223-239):
100 for a bidirectional substring hit, else 20 per distinct shared word. -/
def matchScore (mapKeyLower portLower : List Char) : Nat :=
  let sub : Nat :=
    if containsSub mapKeyLower portLower || containsSub portLower mapKeyLower
    then 100 else 0
  let common :=
    ((wordTokens portLower).dedup.filter
      (fun w => (wordTokens mapKeyLower).contains w)).length
  max sub (20 * common)

/-- Best-scoring alias of the mapping (converters.py:220-244): strict
improvements only, so the earliest alias achieving the maximal score wins. -/
def bestPortMatch (portLower : List Char) (pm : List (String × String)) :
    Option String × Nat :=
  pm.foldl
    (fun acc kc =>
      let sc := matchScore (pyLower kc.1).data portLower
      if acc.2 < sc then (some kc.2, sc) else acc)
    (none, 0)

/-- Acronym of the query's words (converters.py:250): first letters of every
`\w+` token, upper-cased. -/
def portAcronym (portClean : List Char) : String :=
  String.mk ((wordTokens portClean).map (fun t => (t.headD ' ').toUpper))

/-- One alternative of the final extraction regex
`\b([A-Z]{2}\d{4}|[A-Z]{2}\d{3}[A-Z]|[A-Z]{6})\b` on a whole word token. -/
def portCodeShapeToken (t : List Char) : Bool :=
  t.length == 6 &&
    (((t.take 2).all isUC && (t.drop 2).all Char.isDigit) ||
     ((t.take 2).all isUC && ((t.drop 2).take 3).all Char.isDigit &&
       (t.drop 5).all isUC) ||
     t.all isUC)

/-- Stages 4-5 of `get_port_code` (converters.py:254-273): fuzzy phrase
table, regex code extraction, fall back to the stripped query. -/
def portStageFuzzy (port_str : String) (port_clean : String) : String :=
  match portFuzzyMatches.find? (fun kc => strContains port_clean kc.1) with
  | some kc => kc.2
  | none =>
    match (wordTokens port_clean.data).find? portCodeShapeToken with
    | some t => String.mk t
    | none => port_str

/-- Stage 3 of `get_port_code` (converters.py:249-252): acronym lookup. -/
def portStageAcronym (port_str : String) (port_clean : String)
    (pm : List (String × String)) : String :=
  let acr := portAcronym port_clean.data
  if acr ≠ "" then
    match pm.find? (fun kc => kc.1 == acr) with
    | some kc => kc.2
    | none => portStageFuzzy port_str port_clean
  else portStageFuzzy port_str port_clean

/-- Stage 2 of `get_port_code` (converters.py:218-247): alias scoring with
threshold 30 (an empty best-match code is falsy in Python and rejected). -/
def portStageScore (port_str : String) (port_clean : String)
    (pm : List (String × String)) : String :=
  match bestPortMatch (pyLower port_str).data pm with
  | (some code, sc) =>
    if code ≠ "" ∧ 30 < sc then code
    else portStageAcronym port_str port_clean pm
  | (none, _) => portStageAcronym port_str port_clean pm

/-- Stage 1 of `get_port_code` (converters.py:194-216): embedded-PIN lookup,
then the well-known-location keyword table. -/
def portStagePin (port_str : String) (port_clean : String)
    (pm : List (String × String)) : String :=
  let afterPin :=
    match portCommonKeywords.find? (fun kc => strContains port_clean kc.1) with
    | some kc => kc.2
    | none => portStageScore port_str port_clean pm
  match sixDigitToken port_clean.data with
  | some pin =>
    match pm.find? (fun kc => kc.1 == String.mk pin) with
    | some kc => kc.2
    | none => afterPin
  | none => afterPin

/-- `get_port_code` (converters.py:174): blank guard, strip, pass-through of
values already shaped like a canonical code, exact alias lookup, then the
fuzzy stages. -/
def get_port_code (port_name : Cell) (port_mapping : List (String × String)) :
    String :=
  if !port_name.pyTruthy || port_name.isna then ""
  else
    let port_str := pyStrip (pyStr port_name)
    if port_str = "" then ""
    else if port_str.length = 6 ∧ port_str.data.all Char.isAlphanum ∧
        (port_str.data.take 2).all Char.isAlpha ∧
        (port_str.data.drop 2).all Char.isAlphanum then
      port_str
    else
      match port_mapping.find? (fun kc => kc.1 == port_str) with
      | some kc => kc.2
      | none => portStagePin port_str (pyUpper port_str) port_mapping

/-! ## Number normalizers (`convert_to_number` variants) -/

/-- Unsigned part of Python `float(s)`: digits around at most one decimal
point, at least one digit, nothing else.  A successful parse is returned as
the exact pair `(numerator, scale)` denoting `numerator / 10 ^ scale`. -/
def parsePyFloatBody (body : List Char) : Option (Int × Nat) :=
  let intPart := body.takeWhile Char.isDigit
  match body.drop intPart.length with
  | [] =>
    if intPart.isEmpty then none else some ((digitsToNat intPart : Int), 0)
  | '.' :: frac =>
    if frac.all Char.isDigit ∧ ¬(intPart.isEmpty ∧ frac.isEmpty) then
      some ((digitsToNat intPart * 10 ^ frac.length + digitsToNat frac : Int),
        frac.length)
    else none
  | _ => none

/-- Python `float(s)` for the character alphabet the converters can feed it
(digits, `.`, `-` and whatever survived the cleaning): an optional single
leading minus, then digits around at most one decimal point with at least
one digit and nothing else.  Everything outside that syntax raises
`ValueError` in Python, i.e. yields `none` here. -/
def parsePyFloat (l : List Char) : Option (Int × Nat) :=
  if l.headD ' ' = '-' then
    (parsePyFloatBody l.tail).map (fun p => (-p.1, p.2))
  else parsePyFloatBody l

/-- `int(v) if v == int(v) else v` on a cell-borne float: whole numbers are
returned in Python `int` form, others stay `float`. -/
def wholeOrFloat (q : ℚ) : Cell :=
  if q.den = 1 then .int q.num else .float q

/-- `int(v) if v == int(v) else v` on a parsed `(numerator, scale)` value. -/
def wholeOrFloatOf (p : Int × Nat) : Cell :=
  if p.1 % ((10 ^ p.2 : Nat) : Int) = 0 then
    .int (p.1 / ((10 ^ p.2 : Nat) : Int))
  else .float ((p.1 : ℚ) / ((10 ^ p.2 : Nat) : ℚ))

/-- Drop every occurrence of a character (`str.replace(c, '')`). -/
def removeChar (c : Char) (l : List Char) : List Char :=
  l.filter (fun x => x ≠ c)

/-- `convert_to_number` of `convert_dbk_disbursement` and (identical code)
`convert_dbk_pendency` (converters.py:549, 721): keep only digit, dot and
minus characters, parse, and use `None` — not the empty string — as the
unparseable sentinel.  Non-numeric non-string values fall into
`pd.to_numeric(..., errors='coerce')`, which the surrounding `try` turns
into `None` for the only remaining cell kind (a timestamp). -/
def dbk_convert_to_number (value : Cell) : Option Cell :=
  match value with
  | .blank => none
  | .int n => some (.int n)
  | .float q => some (wholeOrFloat q)
  | .str s =>
    let cleaned := s.data.filter (fun c => c.isDigit || c = '.' || c = '-')
    if cleaned.isEmpty then none
    else
      match parsePyFloat cleaned with
      | some p => some (wholeOrFloatOf p)
      | none => none
  | .date _ => none

/-- `convert_to_number` of `convert_brc` (converters.py:826): only commas are
removed (no currency symbols), the sentinel is the empty string. -/
def brc_convert_to_number (value : Cell) : Cell :=
  match value with
  | .blank => .str ""
  | .int n => .int n
  | .float q => wholeOrFloat q
  | .str s =>
    let value_str := pyStripChars (removeChar ',' s.data)
    if value_str.isEmpty then .str ""
    else
      match parsePyFloat value_str with
      | some p => wholeOrFloatOf p
      | none => .str ""
  | .date _ => .str ""

/-- `convert_to_number` of `convert_igst_scroll` and (identical code)
`convert_rodtep_scroll` (converters.py:1179, 1416): strip `₹` and commas,
empty-string sentinel. -/
def inr_convert_to_number (value : Cell) : Cell :=
  match value with
  | .blank => .str ""
  | .int n => .int n
  | .float q => wholeOrFloat q
  | .str s =>
    let value_str := pyStripChars (removeChar ',' (removeChar '₹' s.data))
    if value_str.isEmpty then .str ""
    else
      match parsePyFloat value_str with
      | some p => wholeOrFloatOf p
      | none => .str ""
  | .date _ => .str ""

/-- `convert_to_number` of `convert_rodtep_scrip` (converters.py:1663):
`N.A`/`NA` short-circuit, removal of `₹$€£¥` and commas, then removal of
everything outside `[\d.-]`, empty-string sentinel. -/
def scrip_convert_to_number (value : Cell) : Cell :=
  match value with
  | .blank => .str ""
  | .int n => .int n
  | .float q => wholeOrFloat q
  | .str s =>
    let value_str := pyStripChars s.data
    if value_str.isEmpty ||
        pyUpper (String.mk value_str) = "N.A" ||
        pyUpper (String.mk value_str) = "NA" then .str ""
    else
      let noCur := value_str.filter
        (fun c => ¬(c = '₹' ∨ c = '$' ∨ c = '€' ∨ c = '£' ∨ c = '¥'))
      let noComma := pyStripChars (removeChar ',' noCur)
      let cleaned := noComma.filter (fun c => c.isDigit || c = '.' || c = '-')
      if cleaned.isEmpty then .str ""
      else
        match parsePyFloat cleaned with
        | some p => wholeOrFloatOf p
        | none => .str ""
  | .date _ => .str ""

/-- `convert_to_integer` of `convert_rodtep_scrip` (converters.py:1702):
numbers are truncated with `int(...)`, strings keep only their digits;
empty-string sentinel. -/
def scrip_convert_to_integer (value : Cell) : Cell :=
  match value with
  | .blank => .str ""
  | .int n => .int n
  | .float q => .int (q.num.tdiv (q.den : Int))
  | .str s =>
    let value_str := pyStripChars s.data
    if value_str.isEmpty then .str ""
    else
      let digits := value_str.filter Char.isDigit
      if digits.isEmpty then .str ""
      else .int (digitsToNat digits)
  | .date _ => .str ""

/-! ## Date normalizers (`convert_and_format_date` variants) -/

/-- Gregorian civil date from a day count relative to 1970-01-01
(proleptic Gregorian, the arithmetic `pd.Timestamp` uses). -/
def civilFromDays (z0 : Int) : Int × Nat × Nat :=
  let z := z0 + 719468
  let era : Int := (if 0 ≤ z then z else z - 146096) / 146097
  let doe : Int := z - era * 146097
  let yoe : Int := (doe - doe / 1460 + doe / 36524 - doe / 146096) / 365
  let y : Int := yoe + era * 400
  let doy : Int := doe - (365 * yoe + yoe / 4 - yoe / 100)
  let mp : Int := (5 * doy + 2) / 153
  let d : Int := doy - (153 * mp + 2) / 5 + 1
  let m : Int := mp + (if mp < 10 then 3 else -9)
  ((if m ≤ 2 then y + 1 else y), m.toNat, d.toNat)

/-- Month abbreviations in `strftime('%b')` order. -/
def monthNames : List String :=
  ["Jan", "Feb", "Mar", "Apr", "May", "Jun",
   "Jul", "Aug", "Sep", "Oct", "Nov", "Dec"]

/-- Two-digit zero padding of `%d`. -/
def pad2 (n : Nat) : String :=
  if n < 10 then "0" ++ toString n else toString n

/-- `strftime('%d-%b-%Y')` of a civil date. -/
def fmtYMD (ymd : Nat × Nat × Nat) : String :=
  pad2 ymd.2.2 ++ "-" ++ (monthNames.getD (ymd.2.1 - 1) "") ++ "-" ++
    toString ymd.1

/-- `strftime('%d-%b-%Y')` of `Timestamp('1899-12-30') + Timedelta(days=n)`
(1899-12-30 is 25569 days before the 1970 epoch; within the representable
range the year is positive, so `toNat` is exact). -/
def fmtSerial (n : Int) : String :=
  let c := civilFromDays (n - 25569)
  fmtYMD (c.1.toNat, c.2.1, c.2.2)

/-- The serial values for which `Timestamp('1899-12-30') + Timedelta(days=n)`
succeeds: `Timedelta` needs `|n|·86400·10⁹` in signed 64 bits
(`|n| ≤ 106751`) and the sum must stay inside the `Timestamp` range
(`n - 25569 ≥ -106752`), giving `-81182 ≤ n ≤ 106751`; outside it the
converters' `except` clauses return the empty string. -/
def pandasSerialOk (n : Int) : Bool :=
  -81182 ≤ n && n ≤ 106751

/-- `strptime`-style format tokens used by the converters' format lists. -/
inductive FTok where
  | D
  | M
  | Y
  | Y2
  | B
  | lit (c : Char)
deriving DecidableEq, Repr

/-- Greedy one-or-two-digit field (`%d`, `%m`). -/
def take12 : List Char → Option (Nat × List Char)
  | c1 :: c2 :: rest =>
    if c1.isDigit && c2.isDigit then some (digitsToNat [c1, c2], rest)
    else if c1.isDigit then some (digitsToNat [c1], c2 :: rest)
    else none
  | [c1] => if c1.isDigit then some (digitsToNat [c1], []) else none
  | [] => none

/-- Exactly-four-digit year (`%Y`). -/
def take4 : List Char → Option (Nat × List Char)
  | a :: b :: c :: d :: rest =>
    if a.isDigit && b.isDigit && c.isDigit && d.isDigit then
      some (digitsToNat [a, b, c, d], rest)
    else none
  | _ => none

/-- Exactly-two-digit year (`%y`), with the POSIX century pivot. -/
def take2y : List Char → Option (Nat × List Char)
  | a :: b :: rest =>
    if a.isDigit && b.isDigit then
      let v := digitsToNat [a, b]
      some ((if v ≤ 68 then 2000 + v else 1900 + v), rest)
    else none
  | _ => none

/-- Month-abbreviation field (`%b`), matched case-insensitively. -/
def takeMonth : List Char → Option (Nat × List Char)
  | a :: b :: c :: rest =>
    match monthNames.indexOf? (String.mk [a.toUpper, b.toLower, c.toLower]) with
    | some i => some (i + 1, rest)
    | none => none
  | _ => none

/-- Run one format over the input; the whole string must be consumed.
Missing fields default to 1900-01-01 as in `strptime`. -/
def runFmt : List FTok → List Char → Nat → Nat → Nat →
    Option (Nat × Nat × Nat)
  | [], [], y, m, d => some (y, m, d)
  | [], _ :: _, _, _, _ => none
  | .lit ch :: fs, l, y, m, d =>
    match l with
    | c :: rest => if c = ch then runFmt fs rest y m d else none
    | [] => none
  | .D :: fs, l, y, m, _ =>
    match take12 l with
    | some (v, rest) => runFmt fs rest y m v
    | none => none
  | .M :: fs, l, y, _, d =>
    match take12 l with
    | some (v, rest) => runFmt fs rest y v d
    | none => none
  | .Y :: fs, l, _, m, d =>
    match take4 l with
    | some (v, rest) => runFmt fs rest v m d
    | none => none
  | .Y2 :: fs, l, _, m, d =>
    match take2y l with
    | some (v, rest) => runFmt fs rest v m d
    | none => none
  | .B :: fs, l, y, _, d =>
    match takeMonth l with
    | some (v, rest) => runFmt fs rest y v d
    | none => none

/-- Gregorian leap year. -/
def leapYear (y : Nat) : Bool :=
  y % 4 = 0 && (y % 100 ≠ 0 || y % 400 = 0)

def daysInMonth (y m : Nat) : Nat :=
  if m = 2 then (if leapYear y then 29 else 28)
  else if m = 4 ∨ m = 6 ∨ m = 9 ∨ m = 11 then 30
  else 31

/-- Calendar validity plus the `pd.Timestamp` year range (out-of-bounds
timestamps raise and the enclosing `except` moves to the next format). -/
def validYMD (y m d : Nat) : Bool :=
  1 ≤ m && m ≤ 12 && 1 ≤ d && d ≤ daysInMonth y m && 1677 ≤ y && y ≤ 2262

/-- First format in the list that parses the string to a valid date
(`for fmt in date_formats: try ... except: continue`). -/
def tryFormats (fmts : List (List FTok)) (s : List Char) :
    Option (Nat × Nat × Nat) :=
  fmts.findSome? fun f =>
    match runFmt f s 1900 1 1 with
    | some (y, m, d) => if validYMD y m d then some (y, m, d) else none
    | none => none

/-- `(m.upper(), m.capitalize())` month pairs in calendar order. -/
def monthPairsUC : List (String × String) :=
  [("JAN", "Jan"), ("FEB", "Feb"), ("MAR", "Mar"), ("APR", "Apr"),
   ("MAY", "May"), ("JUN", "Jun"), ("JUL", "Jul"), ("AUG", "Aug"),
   ("SEP", "Sep"), ("OCT", "Oct"), ("NOV", "Nov"), ("DEC", "Dec")]

/-- `(m.lower(), m.capitalize())` month pairs in calendar order. -/
def monthPairsLC : List (String × String) :=
  [("jan", "Jan"), ("feb", "Feb"), ("mar", "Mar"), ("apr", "Apr"),
   ("may", "May"), ("jun", "Jun"), ("jul", "Jul"), ("aug", "Aug"),
   ("sep", "Sep"), ("oct", "Oct"), ("nov", "Nov"), ("dec", "Dec")]

/-- `str.replace(pat, rep)`: replace all non-overlapping occurrences, left
to right (fuel-bounded recursion; one character is consumed per step, so
`l.length` fuel suffices). -/
def replaceAllAux (pat rep : List Char) : Nat → List Char → List Char
  | 0, l => l
  | _ + 1, [] => []
  | fuel + 1, c :: t =>
    if pat ≠ [] ∧ leadsChars pat (c :: t) then
      rep ++ replaceAllAux pat rep fuel (t.drop (pat.length - 1))
    else c :: replaceAllAux pat rep fuel t

def replaceAll (l pat rep : List Char) : List Char :=
  replaceAllAux pat rep l.length l

/-- Format list of `convert_dbk_disbursement.convert_and_format_date`
(converters.py:487-496). -/
def dbkFmts : List (List FTok) :=
  [[.D, .lit '-', .B, .lit '-', .Y2],
   [.D, .lit '-', .B, .lit '-', .Y],
   [.Y, .lit '-', .M, .lit '-', .D],
   [.D, .lit '/', .M, .lit '/', .Y],
   [.M, .lit '/', .D, .lit '/', .Y],
   [.Y, .lit '/', .M, .lit '/', .D],
   [.D, .lit '-', .M, .lit '-', .Y],
   [.M, .lit '-', .D, .lit '-', .Y]]

/-- Format list of `convert_dbk_pendency.convert_and_format_date`
(converters.py:666-675). -/
def pendencyFmts : List (List FTok) :=
  [[.D, .lit '-', .B, .lit '-', .Y],
   [.D, .lit '-', .B, .lit '-', .Y2],
   [.Y, .lit '-', .M, .lit '-', .D],
   [.D, .lit '/', .M, .lit '/', .Y],
   [.M, .lit '/', .D, .lit '/', .Y],
   [.Y, .lit '/', .M, .lit '/', .D],
   [.D, .lit '-', .M, .lit '-', .Y],
   [.M, .lit '-', .D, .lit '-', .Y]]

/-- Format list of `convert_brc.convert_and_format_date`
(converters.py:871-878). -/
def brcFmts : List (List FTok) :=
  [[.D, .lit '-', .M, .lit '-', .Y],
   [.D, .lit '/', .M, .lit '/', .Y],
   [.D, .lit '-', .B, .lit '-', .Y],
   [.D, .lit '-', .B, .lit '-', .Y2],
   [.Y, .lit '-', .M, .lit '-', .D],
   [.D, .lit '.', .M, .lit '.', .Y]]

/-- Format list of `convert_igst_scroll.convert_and_format_date`
(converters.py:1225-1235). -/
def igstFmts : List (List FTok) :=
  [[.Y, .lit '-', .M, .lit '-', .D],
   [.D, .lit '-', .B, .lit '-', .Y2],
   [.D, .lit '-', .B, .lit '-', .Y],
   [.D, .lit '/', .M, .lit '/', .Y],
   [.M, .lit '/', .D, .lit '/', .Y],
   [.Y, .lit '/', .M, .lit '/', .D],
   [.D, .lit '-', .M, .lit '-', .Y],
   [.M, .lit '-', .D, .lit '-', .Y],
   [.D, .lit '.', .M, .lit '.', .Y]]

/-- Format list attempted after the dot-split branch of
`convert_rodtep_scroll.convert_dot_date` (converters.py:1475-1482). -/
def scrollFmts : List (List FTok) :=
  [[.D, .lit '.', .M, .lit '.', .Y],
   [.D, .lit '-', .M, .lit '-', .Y],
   [.D, .lit '/', .M, .lit '/', .Y],
   [.D, .lit '-', .B, .lit '-', .Y],
   [.D, .lit '-', .B, .lit '-', .Y2],
   [.Y, .lit '-', .M, .lit '-', .D]]

/-- Format list of `convert_rodtep_scrip.convert_and_format_date`
(converters.py:1759-1769). -/
def scripFmts : List (List FTok) :=
  [[.D, .lit '.', .M, .lit '.', .Y],
   [.D, .lit '-', .B, .lit '-', .Y],
   [.D, .lit '-', .B, .lit '-', .Y2],
   [.Y, .lit '-', .M, .lit '-', .D],
   [.D, .lit '/', .M, .lit '/', .Y],
   [.M, .lit '/', .D, .lit '/', .Y],
   [.Y, .lit '/', .M, .lit '/', .D],
   [.D, .lit '-', .M, .lit '-', .Y],
   [.M, .lit '-', .D, .lit '-', .Y]]

/-- Month fallback of the dbk-disbursement normalizer (converters.py:507-526):
for each month abbreviation contained in the upper-cased string, substitute
its capitalized form into the upper-cased string and retry
`%d-%b-%y` then `%d-%b-%Y`. -/
def dbkMonthFallback (t : List Char) : Option (Nat × Nat × Nat) :=
  let up := (pyUpper (String.mk t)).data
  if monthPairsUC.any (fun p => containsSub p.1.data up) then
    monthPairsUC.findSome? fun p =>
      if containsSub p.1.data up then
        tryFormats [[.D, .lit '-', .B, .lit '-', .Y2],
                    [.D, .lit '-', .B, .lit '-', .Y]]
          (replaceAll up p.1.data p.2.data)
      else none
  else none

/-- Month fallback of the pendency and igst normalizers
(converters.py:687-698, 1246-1258): if any month abbreviation occurs, retry
`%d-%b-%y` then `%d-%b-%Y` on the original string. -/
def pendencyMonthFallback (t : List Char) : Option (Nat × Nat × Nat) :=
  if monthPairsUC.any (fun p => containsSub p.1.data (pyUpper (String.mk t)).data)
  then
    tryFormats [[.D, .lit '-', .B, .lit '-', .Y2],
                [.D, .lit '-', .B, .lit '-', .Y]] t
  else none

/-- Month fallback of the brc and scrip normalizers (converters.py:889-905,
1780-1796): for each lower-case month abbreviation contained in the
lower-cased string, substitute its capitalized form into the lower-cased
string and retry `%d-%b-%Y`. -/
def brcMonthFallback (t : List Char) : Option (Nat × Nat × Nat) :=
  monthPairsLC.findSome? fun p =>
    if containsSub p.1.data (pyLower (String.mk t)).data then
      tryFormats [[.D, .lit '-', .B, .lit '-', .Y]]
        (replaceAll (pyLower (String.mk t)).data p.1.data p.2.data)
    else none

/-- Common skeleton of the `convert_and_format_date` variants: `NaN` to
empty, timestamps formatted directly, strings through the converter's
format list and month fallback, numbers as Excel serials from the
1899-12-30 epoch.  pandas' permissive final parser
(`pd.to_datetime(..., errors='coerce')`) is external library heuristics and
is modelled as unparseable; fractional serial days place the timestamp
inside the day `⌊q⌋` after the epoch. -/
def convert_and_format_date_core (fmts : List (List FTok))
    (fallback : List Char → Option (Nat × Nat × Nat)) (v : Cell) : String :=
  match v with
  | .blank => ""
  | .date days => fmtSerial days
  | .str s =>
    let t := pyStrip s
    if t = "" then ""
    else
      match tryFormats fmts t.data with
      | some ymd => fmtYMD ymd
      | none =>
        match fallback t.data with
        | some ymd => fmtYMD ymd
        | none => ""
  | .int n => if pandasSerialOk n then fmtSerial n else ""
  | .float q => if pandasSerialOk q.floor then fmtSerial q.floor else ""

/-- `convert_and_format_date` of `convert_dbk_disbursement`
(converters.py:470-546). -/
def dbk_convert_and_format_date (v : Cell) : String :=
  convert_and_format_date_core dbkFmts dbkMonthFallback v

/-- `convert_and_format_date` of `convert_dbk_pendency`
(converters.py:650-718); every successful return is upper-cased. -/
def pendency_convert_and_format_date (v : Cell) : String :=
  pyUpper (convert_and_format_date_core pendencyFmts pendencyMonthFallback v)

/-- `convert_and_format_date` of `convert_brc` (converters.py:855-925). -/
def brc_convert_and_format_date (v : Cell) : String :=
  convert_and_format_date_core brcFmts brcMonthFallback v

/-- `convert_and_format_date` of `convert_igst_scroll`
(converters.py:1209-1278). -/
def igst_convert_and_format_date (v : Cell) : String :=
  convert_and_format_date_core igstFmts pendencyMonthFallback v

/-- `convert_and_format_date` of `convert_rodtep_scrip`
(converters.py:1733-1816): `N.A`/`NA` strings are preserved (stripped and
upper-cased) before any parsing. -/
def scrip_convert_and_format_date (v : Cell) : String :=
  match v with
  | .str s =>
    let u := pyUpper (pyStrip s)
    if u = "N.A" ∨ u = "NA" then u
    else convert_and_format_date_core scripFmts brcMonthFallback v
  | _ => convert_and_format_date_core scripFmts brcMonthFallback v

/-- `int(s)` for the dot-split date parts: digits after stripping
(other inputs make either `int` or the subsequent `datetime` constructor
raise, which the enclosing `except` turns into `none`). -/
def pyIntNat (s : String) : Option Nat :=
  let t := pyStripChars s.data
  if t.isEmpty || !t.all Char.isDigit then none else some (digitsToNat t)

/-- `datetime.datetime` constructor validity (year 1..9999; no pandas
bounds in the dot-split branch, which formats the `datetime` directly). -/
def validDatetime (y m d : Nat) : Bool :=
  1 ≤ y && y ≤ 9999 && 1 ≤ m && m ≤ 12 && 1 ≤ d && d ≤ daysInMonth y m

/-- The explicit `dd.mm.yyyy` split attempt of `convert_dot_date`
(converters.py:1461-1472): on exactly three dot-separated parts, widen a
two-character year with a literal `"20"` and build a `datetime`. -/
def dotSplitDate (t : String) : Option (Nat × Nat × Nat) :=
  if t.data.contains '.' then
    match t.splitOn "." with
    | [dayS, monS, yearS] =>
      let yearS2 := if yearS.length = 2 then "20" ++ yearS else yearS
      match pyIntNat yearS2, pyIntNat monS, pyIntNat dayS with
      | some y, some m, some d =>
        if validDatetime y m d then some (y, m, d) else none
      | _, _, _ => none
    | _ => none
  else none

/-- `convert_dot_date` of `convert_rodtep_scroll` (converters.py:1446-1512):
like the common skeleton but with the explicit dot-split attempt first and
with the numeric branch guarded by `date_value > 0` — non-positive serials
yield the empty string. -/
def rodtep_convert_dot_date (v : Cell) : String :=
  match v with
  | .blank => ""
  | .date days => fmtSerial days
  | .str s =>
    let t := pyStrip s
    if t = "" then ""
    else
      match dotSplitDate t with
      | some ymd => fmtYMD ymd
      | none =>
        match tryFormats scrollFmts t.data with
        | some ymd => fmtYMD ymd
        | none => ""
  | .int n =>
    if 0 < n then (if pandasSerialOk n then fmtSerial n else "") else ""
  | .float q =>
    if 0 < q then (if pandasSerialOk q.floor then fmtSerial q.floor else "")
    else ""

/-! ## Row loop skeleton shared by the converters -/

/-- The row loop common to every converter: walk the index-annotated rows,
emit `build serial row` for each kept row, and advance the running serial
only on emission (`serial_number += 1` sits inside the emitting branch). -/
def emitLoop (keep : Nat × List Cell → Bool)
    (build : Nat → Nat × List Cell → List Cell) :
    Nat → List (Nat × List Cell) → List (List Cell)
  | _, [] => []
  | serial, ir :: rest =>
    if keep ir then build serial ir :: emitLoop keep build (serial + 1) rest
    else emitLoop keep build serial rest

/-- Serial-assigning map: the kept rows receive serials `s, s+1, ...`. -/
def serialMap (build : Nat → Nat × List Cell → List Cell) :
    Nat → List (Nat × List Cell) → List (List Cell)
  | _, [] => []
  | s, ir :: rest => build s ir :: serialMap build (s + 1) rest

/-! ## `convert_dbk_disbursement` (converters.py:455) -/

def dbkDisbCols : List String :=
  ["S No.", "Port", "Shipping Bill No.", "Shipping Bill Date", "Scroll No.",
   "Scroll Date", "Drawback", "STR", "Amount"]

/-- The fixed dbk-disbursement header block (converters.py:617-628). -/
def dbkDisbHeaderRows : List (List Cell) :=
  [[.str "IEC Name - Alfa", .str "", .str "", .str "", .str "", .str "",
    .str "", .str "", .str ""],
   [.str "Report Generated From - 2021/01/01To2021/06/30", .str "", .str "",
    .str "", .str "", .str "", .str "", .str "", .str ""],
   [.str "Report Generated On - 16/02/2022 12:58:50", .str "", .str "",
    .str "", .str "", .str "", .str "", .str "", .str ""],
   [.str "S No.", .str "Port", .str "Shipping Bill No.",
    .str "Shipping Bill Date", .str "Scroll No.", .str "Scroll Date",
    .str "Drawback", .str "STR", .str "Amount"]]

/-- One output row of `convert_dbk_disbursement` (converters.py:572-601):
absent numbers become `0`, the running serial lands in the first column. -/
def dbkDisbBuild (df : DataFrame) (serial : Nat) (ir : Nat × List Cell) :
    List Cell :=
  let row := ir.2
  let sbn := dbk_convert_to_number (getCol df row "SB No")
  let sbd := dbk_convert_and_format_date (getCol df row "SB Date")
  let scn := dbk_convert_to_number (getCol df row "Custom Scroll No")
  let scd := dbk_convert_and_format_date (getCol df row "Custom Scroll Date")
  let port : Cell :=
    if (getCol df row "Location").isna then .str ""
    else .str (pyStr (getCol df row "Location"))
  let amount := dbk_convert_to_number (getCol df row "IgstAmount")
  [.int (Int.ofNat serial), port, sbn.getD (.int 0), .str sbd,
   scn.getD (.int 0), .str scd, .str "", .str "", amount.getD (.int 0)]

/-- `convert_dbk_disbursement` (converters.py:455): empty input is returned
unchanged; otherwise every input row is converted — the loop has no skip
condition of any kind — and the literal header block is prepended. -/
def convert_dbk_disbursement (df : DataFrame) : DataFrame :=
  if df.emptyDf then df
  else
    ⟨dbkDisbCols,
     dbkDisbHeaderRows ++
       emitLoop (fun _ => true) (dbkDisbBuild df) 1 df.rows.enum⟩

/-! ## `convert_dbk_pendency` (converters.py:635) -/

def dbkPendCols : List String :=
  ["S No.", "Shipping Bill No.", "Shipping Bill Date", "LEO Date", "Amount",
   "Current Queue"]

/-- The fixed dbk-pendency header block (converters.py:786-798). -/
def dbkPendHeaderRows : List (List Cell) :=
  [[.str "IEC Name-Alfa", .str "", .str "", .str "", .str "", .str ""],
   [.str "Location Name-All Locations", .str "", .str "", .str "", .str "",
    .str ""],
   [.str "Report Generated From-2021/07/01To2021/11/30", .str "", .str "",
    .str "", .str "", .str ""],
   [.str "Report Generated On-16/02/2022 12:48:50", .str "", .str "", .str "",
    .str "", .str ""],
   [.str "S No.", .str "Shipping Bill No.", .str "Shipping Bill Date",
    .str "LEO Date", .str "Amount", .str "Current Queue"]]

/-- One output row of `convert_dbk_pendency` (converters.py:744-770). -/
def dbkPendBuild (df : DataFrame) (serial : Nat) (ir : Nat × List Cell) :
    List Cell :=
  let row := ir.2
  let sbn := dbk_convert_to_number (getCol df row "SB No")
  let sbd := pendency_convert_and_format_date (getCol df row "SB Date")
  let leo := pendency_convert_and_format_date (getCol df row "Leo Date")
  let amount := dbk_convert_to_number (getCol df row "DBK Amount RS")
  let queue : Cell :=
    if (getCol df row "Curr Queue").isna then .str ""
    else .str (pyStr (getCol df row "Curr Queue"))
  [.int (Int.ofNat serial), sbn.getD (.int 0), .str sbd, .str leo,
   amount.getD (.int 0), queue]

/-- `convert_dbk_pendency` (converters.py:635): like the disbursement
converter, every input row is converted with no skip condition. -/
def convert_dbk_pendency (df : DataFrame) : DataFrame :=
  if df.emptyDf then df
  else
    ⟨dbkPendCols,
     dbkPendHeaderRows ++
       emitLoop (fun _ => true) (dbkPendBuild df) 1 df.rows.enum⟩

/-! ## `convert_brc` (converters.py:806) -/

/-- Association-list update with Python-dict semantics (insertion order kept,
assignment to an existing key overwrites in place). -/
def setA {β : Type} (l : List (String × β)) (k : String) (v : β) :
    List (String × β) :=
  if l.any (fun p => p.1 == k) then
    l.map (fun p => if p.1 == k then (k, v) else p)
  else l ++ [(k, v)]

def getA {β : Type} (l : List (String × β)) (k : String) : Option β :=
  (l.find? (fun p => p.1 == k)).map (fun p => p.2)

def hasA {β : Type} (l : List (String × β)) (k : String) : Bool :=
  (getA l k).isSome

/-- `expected_columns` of `convert_brc` (converters.py:936-948). -/
def brcExpected : List (String × String) :=
  [("BRC Number", "brc_number"), ("BRC Date", "brc_date"),
   ("BRC Status", "brc_status"), ("Invoice Number", "invoice_number"),
   ("SB NUMBER", "sb_number"), ("PORT CODE", "port_code"),
   ("SB Date", "sb_date"), ("REALISED VALUE", "realised_value"),
   ("CURRENCY", "currency"), ("REALIZATION_DATE", "realization_date"),
   ("BRC Utlisation Status", "brc_utilisation")]

/-- The positional defaults of `convert_brc` (converters.py:980-991). -/
def brcOtherDefaults : List (String × Nat) :=
  [("brc_number", 0), ("brc_date", 1), ("brc_status", 2),
   ("invoice_number", 7), ("sb_number", 4), ("sb_date", 5),
   ("realised_value", 25), ("currency", 26), ("realization_date", 24),
   ("brc_utilisation", 22)]

/-- Column-index resolution of `convert_brc` (converters.py:927-996):
exact-name pass, case-insensitive pass (only while fields are missing),
port-specific pass, default port position 6, positional defaults. -/
def brcColumnIndices (cols : List String) : List (String × Nat) :=
  let pass1 := cols.foldl
    (fun acc col =>
      match brcExpected.find? (fun p => p.1 == col) with
      | some p => setA acc p.2 ((cols.indexOf? col).getD 0)
      | none => acc)
    []
  let pass2 :=
    if pass1.length < brcExpected.length then
      cols.foldl
        (fun acc col =>
          brcExpected.foldl
            (fun acc2 p =>
              if ¬hasA acc2 p.2 ∧ strContains (pyLower col) (pyLower p.1) then
                setA acc2 p.2 ((cols.indexOf? col).getD 0)
              else acc2)
            acc)
        pass1
    else pass1
  let pass3 := cols.enum.foldl
    (fun acc ic =>
      if strContains (pyLower ic.2) "port" ∧ ¬hasA acc "port_code" then
        setA acc "port_code" ic.1
      else acc)
    pass2
  let pass4 :=
    if ¬hasA pass3 "port_code" ∧ 6 < cols.length then setA pass3 "port_code" 6
    else pass3
  brcOtherDefaults.foldl
    (fun acc p =>
      if ¬hasA acc p.1 ∧ p.2 < cols.length then setA acc p.1 p.2 else acc)
    pass4

/-- `get_value` of `convert_brc` (converters.py:1034-1040): a mapped,
in-range, non-missing cell, else the empty-string default — never `NaN`. -/
def brc_get_value (idxs : List (String × Nat)) (row : List Cell)
    (k : String) : Cell :=
  match getA idxs k with
  | some i =>
    if i < row.length then
      match row.getD i .blank with
      | .blank => .str ""
      | c => c
    else .str ""
  | none => .str ""

/-- The embedded-header keyword list of the brc row loop
(converters.py:1017-1019). -/
def brcRowHeaderKeywords : List String :=
  ["brc number", "brc date", "brc status", "invoice number", "sb number",
   "port code", "sb date", "realised value", "currency", "realization_date",
   "brc utilisation status"]

/-- Does some string cell of the row contain a brc header keyword
(converters.py:1021-1027)? -/
def brcIsHeaderRow (row : List Cell) : Bool :=
  row.any fun c =>
    match c with
    | .str s => brcRowHeaderKeywords.any (fun k => strContains (pyLower s) k)
    | _ => false

/-- Row filter of the brc loop (converters.py:1011-1072): skip fully-missing
rows, skip keyword rows, and skip rows whose `brc_number` and `sb_number`
are both `NaN` — a test written against `get_value` results, which are
never `NaN`. -/
def brcKeep (idxs : List (String × Nat)) (ir : Nat × List Cell) : Bool :=
  !rowAllNa ir.2 && !brcIsHeaderRow ir.2 &&
    !((brc_get_value idxs ir.2 "brc_number").isna &&
      (brc_get_value idxs ir.2 "sb_number").isna)

def brcCols : List String :=
  ["BRC Number", "BRC Date", "BRC Status", "Bill ID", "SHB No", "SHB Port",
   "SHB Date", "Realised Value", "Currency", "Date of Realization",
   "BRC Utlisation Status", "BRC Lot"]

/-- The fixed brc header block (converters.py:1127-1147): two empty rows and
the column-title row. -/
def brcHeaderRows : List (List Cell) :=
  [brcCols.map (fun _ => Cell.str ""),
   brcCols.map (fun _ => Cell.str ""),
   brcCols.map Cell.str]

/-- One output row of `convert_brc` (converters.py:1042-1099); the serial
counter is incremented but no serial column exists in this schema. -/
def brcBuild (pm : List (String × String)) (idxs : List (String × Nat))
    (row : List Cell) : List Cell :=
  let gv := brc_get_value idxs row
  let strOrEmpty : Cell → Cell := fun c =>
    if c.isna then .str "" else .str (pyStrip (pyStr c))
  let numOrEmpty : Cell → Cell := fun c =>
    if c.isna then .str "" else brc_convert_to_number c
  let dateOrEmpty : Cell → Cell := fun c =>
    if c.isna then .str "" else .str (brc_convert_and_format_date c)
  [strOrEmpty (gv "brc_number"),
   dateOrEmpty (gv "brc_date"),
   strOrEmpty (gv "brc_status"),
   numOrEmpty (gv "invoice_number"),
   numOrEmpty (gv "sb_number"),
   .str (get_port_code (gv "port_code") pm),
   dateOrEmpty (gv "sb_date"),
   numOrEmpty (gv "realised_value"),
   .str (get_currency_code (gv "currency")),
   dateOrEmpty (gv "realization_date"),
   strOrEmpty (gv "brc_utilisation"),
   .str ""]

/-- `convert_brc` (converters.py:806).  The Python function loads the port
mapping from `Port Code List.xlsx` on disk; that file read is external, so
the loaded mapping is a parameter here (an absent file gives `[]`).  The
`brc_type` discriminator is accepted and, as in the source, never used by
the conversion logic. -/
def convert_brc (pm : List (String × String)) (df : DataFrame)
    (_brc_type : Option String) : DataFrame :=
  if df.emptyDf then df
  else
    let idxs := brcColumnIndices df.cols
    ⟨brcCols,
     brcHeaderRows ++
       emitLoop (brcKeep idxs) (fun _ ir => brcBuild pm idxs ir.2) 1
         df.rows.enum⟩

/-! ## `convert_irm` (converters.py:1155) -/

/-- `convert_irm`: both branches return the input unchanged. -/
def convert_irm (df : DataFrame) : DataFrame :=
  if df.emptyDf then df else df

/-! ## `convert_igst_scroll` (converters.py:1164) -/

def igstCols : List String :=
  ["S No.", "Shipping Bill No.", "Shipping Bill Date", "IGST Scroll Number",
   "IGST Scroll Date", "Scroll Amount(INR)", "Scroll Status At PFMS",
   "Scroll Status At PAO", "Bank Response Code", "Bank Transaction Details"]

/-- The fixed igst header block (converters.py:1372-1387): six rows. -/
def igstHeaderRows : List (List Cell) :=
  [[.str "IEC Name  -  ALFA", .str "", .str "", .str "", .str "", .str "",
    .str "", .str "", .str "", .str ""],
   [.str "Location Name  -  NHAVA SHEVA SEA (INNSA1)", .str "", .str "",
    .str "", .str "", .str "", .str "", .str "", .str "", .str ""],
   [.str "Report Generated From -  2024/01/01  To  2024/06/30", .str "",
    .str "", .str "", .str "", .str "", .str "", .str "", .str "", .str ""],
   [.str "Report Generated On  -  30/07/2024 15:05:26", .str "", .str "",
    .str "", .str "", .str "", .str "", .str "", .str "", .str ""],
   [.str "S No.", .str "Shipping Bill No.", .str "Shipping Bill Date",
    .str "IGST Scroll Number", .str "IGST Scroll Date",
    .str "Scroll Amount(INR)", .str "Scroll Status", .str "Scroll Status",
    .str "Bank Response Code", .str "Bank Transaction Details"],
   [.str "", .str "", .str "", .str "", .str "", .str "", .str "At PFMS",
    .str "At PAO", .str "", .str ""]]

/-- Row filter of the igst loop (converters.py:1288-1332): skip fully-missing
rows, skip a row whose shipping-bill cell is a string containing the header
text, and skip rows whose shipping-bill number and scroll number are both
missing or empty strings. -/
def igstKeep (df : DataFrame) (ir : Nat × List Cell) : Bool :=
  let sbn := getCol df ir.2 "Shipping Bill No."
  let scn := getCol df ir.2 "IGST Scroll No"
  !rowAllNa ir.2 &&
    !(match sbn with
      | .str s => strContains s "Shipping Bill No."
      | _ => false) &&
    !((sbn.isna || sbn == .str "") && (scn.isna || scn == .str ""))

/-- One output row of `convert_igst_scroll` (converters.py:1299-1346). -/
def igstBuild (df : DataFrame) (serial : Nat) (ir : Nat × List Cell) :
    List Cell :=
  let row := ir.2
  let strOrEmpty : Cell → Cell := fun c =>
    if c.isna then .str "" else .str (pyStrip (pyStr c))
  let numOrEmpty : Cell → Cell := fun c =>
    if c.isna then .str "" else inr_convert_to_number c
  [.int (Int.ofNat serial),
   numOrEmpty (getCol df row "Shipping Bill No."),
   .str (igst_convert_and_format_date (getCol df row "Shipping Bill Date")),
   strOrEmpty (getCol df row "IGST Scroll No"),
   .str (igst_convert_and_format_date (getCol df row "IGST Scroll Date")),
   numOrEmpty (getCol df row "Scroll Amount(INR)"),
   strOrEmpty (getCol df row "Scroll Status At PFMS"),
   strOrEmpty (getCol df row "Scroll Status At PAO"),
   strOrEmpty (getCol df row "Bank Response Code"),
   strOrEmpty (getCol df row "Bank Transaction ID")]

/-- `convert_igst_scroll` (converters.py:1164). -/
def convert_igst_scroll (df : DataFrame) : DataFrame :=
  if df.emptyDf then df
  else
    ⟨igstCols,
     igstHeaderRows ++ emitLoop (igstKeep df) (igstBuild df) 1 df.rows.enum⟩

/-! ## `convert_rodtep_scroll` (converters.py:1401) -/

/-- Column-name mapping of `convert_rodtep_scroll` (converters.py:1520-1537):
an `elif` chain over each column label; a later matching column overwrites
an earlier one for the same key. -/
def scrollColumnMapNamed (cols : List String) : List (String × String) :=
  cols.foldl
    (fun acc col =>
      let cl := pyLower col
      if strContains cl "sb number" || strContains cl "shipping bill" then
        setA acc "sb_number" col
      else if strContains cl "sb date" ||
          strContains cl "shipping bill date" then
        setA acc "sb_date" col
      else if strContains cl "scroll number" then setA acc "scroll_number" col
      else if strContains cl "scroll date" then setA acc "scroll_date" col
      else if strContains cl "location" then setA acc "location" col
      else if strContains cl "sanctioned" || strContains cl "amount" then
        setA acc "amount" col
      else acc)
    []

/-- Full column mapping with the positional fallback
(converters.py:1541-1552): positions 0,1,2,3,5,6 when no label matched and
at least 7 columns exist. -/
def scrollColumnMap (cols : List String) : List (String × String) :=
  let m := scrollColumnMapNamed cols
  if m.isEmpty ∧ 7 ≤ cols.length then
    [("sb_number", cols.getD 0 ""), ("sb_date", cols.getD 1 ""),
     ("scroll_number", cols.getD 2 ""), ("scroll_date", cols.getD 3 ""),
     ("location", cols.getD 5 ""), ("amount", cols.getD 6 "")]
  else m

/-- `row[column_map.get(k)] if k in column_map else None`. -/
def getMapped (df : DataFrame) (m : List (String × String))
    (row : List Cell) (k : String) : Cell :=
  match getA m k with
  | some colName => getCol df row colName
  | none => .blank

/-- Header keywords of the rodtep-scroll row-0 check (converters.py:1564). -/
def scrollHeaderKeywords : List String :=
  ["sb", "scroll", "date", "number", "location", "amount"]

/-- Does some string cell of the row contain a rodtep-scroll header keyword
(converters.py:1566-1571)? -/
def scrollRow0Headerish (row : List Cell) : Bool :=
  row.any fun c =>
    match c with
    | .str s => scrollHeaderKeywords.any (fun k => strContains (pyLower s) k)
    | _ => false

/-- Row filter of the rodtep-scroll loop (converters.py:1555-1597): skip
fully-missing rows, skip row 0 when it looks like a header, and skip rows
whose SB number and scroll number are both missing. -/
def scrollKeep (df : DataFrame) (m : List (String × String))
    (ir : Nat × List Cell) : Bool :=
  !rowAllNa ir.2 && !(ir.1 == 0 && scrollRow0Headerish ir.2) &&
    !((getMapped df m ir.2 "sb_number").isna &&
      (getMapped df m ir.2 "scroll_number").isna)

def scrollCols : List String :=
  ["Sr. No.", "SHB No", "Date", "Scroll No", "Scroll Date", "Scroll Amt",
   "Port"]

/-- The fixed rodtep-scroll header block (converters.py:1633-1641): two
empty rows and the column-title row. -/
def scrollHeaderRows : List (List Cell) :=
  [scrollCols.map (fun _ => Cell.str ""),
   scrollCols.map (fun _ => Cell.str ""),
   scrollCols.map Cell.str]

/-- One output row of `convert_rodtep_scroll` (converters.py:1576-1608). -/
def scrollBuild (df : DataFrame) (m : List (String × String)) (serial : Nat)
    (ir : Nat × List Cell) : List Cell :=
  let row := ir.2
  let location := getMapped df m row "location"
  [.int (Int.ofNat serial),
   inr_convert_to_number (getMapped df m row "sb_number"),
   .str (rodtep_convert_dot_date (getMapped df m row "sb_date")),
   inr_convert_to_number (getMapped df m row "scroll_number"),
   .str (rodtep_convert_dot_date (getMapped df m row "scroll_date")),
   inr_convert_to_number (getMapped df m row "amount"),
   if location.isna then .str "" else .str (pyStr location)]

/-- `convert_rodtep_scroll` (converters.py:1401). -/
def convert_rodtep_scroll (df : DataFrame) : DataFrame :=
  if df.emptyDf then df
  else
    let m := scrollColumnMap df.cols
    ⟨scrollCols,
     scrollHeaderRows ++
       emitLoop (scrollKeep df m) (scrollBuild df m) 1 df.rows.enum⟩

/-! ## `convert_rodtep_scrip` (converters.py:1648) -/

/-- Column-name mapping of `convert_rodtep_scrip`
(converters.py:1832-1853). -/
def scripColumnMapNamed (cols : List String) : List (String × String) :=
  cols.foldl
    (fun acc col =>
      let cl := pyLower col
      if strContains cl "scrip no" then setA acc "scrip_no" col
      else if strContains cl "scrip issue date" then
        setA acc "scrip_issue_date" col
      else if strContains cl "scrip exp date" ||
          strContains cl "scrip expiry date" then
        setA acc "scrip_exp_date" col
      else if strContains cl "scrip issued amount" then
        setA acc "scrip_issued_amount" col
      else if strContains cl "scrip balance" then setA acc "scrip_balance" col
      else if strContains cl "scrip transfer date" then
        setA acc "scrip_transfer_date" col
      else if strContains cl "scrip status" then setA acc "scrip_status" col
      else if strContains cl "scroll number" then setA acc "scroll_number" col
      else if strContains cl "sb number" || strContains cl "shipping bill" then
        setA acc "sb_number" col
      else acc)
    []

/-- Full scrip column mapping with the positional fallback
(converters.py:1857-1871). -/
def scripColumnMap (cols : List String) : List (String × String) :=
  let m := scripColumnMapNamed cols
  if m.isEmpty ∧ 9 ≤ cols.length then
    [("scrip_no", cols.getD 0 ""), ("scrip_issue_date", cols.getD 1 ""),
     ("scrip_exp_date", cols.getD 2 ""),
     ("scrip_issued_amount", cols.getD 3 ""),
     ("scrip_balance", cols.getD 4 ""),
     ("scrip_transfer_date", cols.getD 5 ""),
     ("scrip_status", cols.getD 6 ""), ("scroll_number", cols.getD 7 ""),
     ("sb_number", cols.getD 8 "")]
  else m

/-- Header keywords of the scrip row-0 check (converters.py:1883). -/
def scripHeaderKeywords : List String :=
  ["scrip", "scroll", "sb", "date", "number", "amount", "balance", "status"]

def scripRow0Headerish (row : List Cell) : Bool :=
  row.any fun c =>
    match c with
    | .str s => scripHeaderKeywords.any (fun k => strContains (pyLower s) k)
    | _ => false

/-- Row filter of the scrip loop (converters.py:1874-1923): skip
fully-missing rows, skip row 0 when it looks like a header, and skip rows
only when the scrip number, scroll number and SB number are all three
missing. -/
def scripKeep (df : DataFrame) (m : List (String × String))
    (ir : Nat × List Cell) : Bool :=
  !rowAllNa ir.2 && !(ir.1 == 0 && scripRow0Headerish ir.2) &&
    !((getMapped df m ir.2 "scrip_no").isna &&
      (getMapped df m ir.2 "scroll_number").isna &&
      (getMapped df m ir.2 "sb_number").isna)

def scripCols : List String :=
  ["Sr. No", "SCROLL NUMBER", "SB NUMBER", "SB DATE", "SB AMOUNT",
   "SCRIP NUMBER", "SCRIP ISSUE DATE", "SCRIP EXPIRY DATE",
   "SCRIP ISSUE AMOUNT", "SCRIP BALANCE AMOUNT", "SCRIP TRANSFER DATE",
   "SCRIP STATUS", "Application Ref. No"]

/-- The fixed rodtep-scrip header block (converters.py:1986-2007). -/
def scripHeaderRows : List (List Cell) :=
  [scripCols.map (fun _ => Cell.str ""),
   scripCols.map (fun _ => Cell.str ""),
   scripCols.map Cell.str]

/-- One output row of `convert_rodtep_scrip` (converters.py:1895-1950):
the scroll-number, SB-date, SB-amount and application-reference columns are
deliberately blank; the transfer date preserves `N.A`/`NA`. -/
def scripBuild (df : DataFrame) (m : List (String × String)) (serial : Nat)
    (ir : Nat × List Cell) : List Cell :=
  let row := ir.2
  let intOrEmpty : Cell → Cell := fun c =>
    if c.isna then .str "" else scrip_convert_to_integer c
  let numOrEmpty : Cell → Cell := fun c =>
    if c.isna then .str "" else scrip_convert_to_number c
  let transfer := getMapped df m row "scrip_transfer_date"
  let transferFormatted : String :=
    if transfer.isna then ""
    else
      let u := pyUpper (pyStrip (pyStr transfer))
      if u = "N.A" ∨ u = "NA" then u
      else scrip_convert_and_format_date transfer
  let status := getMapped df m row "scrip_status"
  [.int (Int.ofNat serial),
   .str "",
   intOrEmpty (getMapped df m row "sb_number"),
   .str "",
   .str "",
   intOrEmpty (getMapped df m row "scrip_no"),
   .str (scrip_convert_and_format_date (getMapped df m row "scrip_issue_date")),
   .str (scrip_convert_and_format_date (getMapped df m row "scrip_exp_date")),
   numOrEmpty (getMapped df m row "scrip_issued_amount"),
   numOrEmpty (getMapped df m row "scrip_balance"),
   .str transferFormatted,
   if status.isna then .str "" else .str (pyStrip (pyStr status)),
   .str ""]

/-- `convert_rodtep_scrip` (converters.py:1648). -/
def convert_rodtep_scrip (df : DataFrame) : DataFrame :=
  if df.emptyDf then df
  else
    let m := scripColumnMap df.cols
    ⟨scripCols,
     scripHeaderRows ++
       emitLoop (scripKeep df m) (scripBuild df m) 1 df.rows.enum⟩

/-! ## Orchestration (`process_excel`, app boundary) -/

/-- `process_excel` (converters.py:2014), with file loading abstracted to
already-decoded tables: merge-then-convert for the three multi-file
processes, single-file dispatch otherwise.  An unrecognized process type
reaches `converters.get(process_type)` returning `None` and the raw loaded
table is returned unchanged. -/
def process_excel (pm : List (String × String)) (process_type : String)
    (files : List (String × DataFrame)) (brc_type : Option String) :
    Except String DataFrame :=
  if process_type ∈ ["dbk_disbursement", "dbk_pendency", "brc"] then
    match merge_excel_files files with
    | .error e => .error e
    | .ok merged =>
      if process_type = "dbk_disbursement" then
        .ok (convert_dbk_disbursement merged)
      else if process_type = "dbk_pendency" then
        .ok (convert_dbk_pendency merged)
      else .ok (convert_brc pm merged brc_type)
  else
    match files with
    | [] => .error "No file provided"
    | (_, df) :: _ =>
      if process_type = "irm" then .ok (convert_irm df)
      else if process_type = "igst_scroll" then .ok (convert_igst_scroll df)
      else if process_type = "rodtep_scroll" then
        .ok (convert_rodtep_scroll df)
      else if process_type = "rodtep_scrip" then .ok (convert_rodtep_scrip df)
      else .ok df

/-- The orchestrator boundary of `app.process_files` around `process_excel`
(app.py:142-154): conversion errors propagate, and a resulting frame with
`df.empty` true is rejected with the explicit user-visible message. -/
def app_process (pm : List (String × String)) (process_type : String)
    (files : List (String × DataFrame)) (brc_type : Option String) :
    Except String DataFrame :=
  match process_excel pm process_type files brc_type with
  | .error e => .error e
  | .ok df =>
    if df.emptyDf then .error "Processed data is empty. No data to export."
    else .ok df

/-! ## Supporting lemmas -/

/-- The converters' row loop is the serial-assigning map over the kept rows:
the serial counter advances exactly on emission. -/
theorem emitLoop_eq_filter (keep : Nat × List Cell → Bool)
    (build : Nat → Nat × List Cell → List Cell) :
    ∀ (l : List (Nat × List Cell)) (s : Nat),
      emitLoop keep build s l = serialMap build s (l.filter keep) := by
  intro l
  induction l with
  | nil => intro s; rfl
  | cons a t ih =>
    intro s
    cases h : keep a with
    | true => simp [emitLoop, h, List.filter_cons, serialMap, ih]
    | false => simp [emitLoop, h, List.filter_cons, ih]

theorem serialMap_length (build : Nat → Nat × List Cell → List Cell) :
    ∀ (s : Nat) (l : List (Nat × List Cell)),
      (serialMap build s l).length = l.length := by
  intro s l
  induction l generalizing s with
  | nil => rfl
  | cons a t ih => simp [serialMap, ih]

/-- A serial-ignoring build turns `serialMap` into a plain map. -/
theorem serialMap_of_const (f : Nat × List Cell → List Cell) :
    ∀ (s : Nat) (l : List (Nat × List Cell)),
      serialMap (fun _ ir => f ir) s l = l.map f := by
  intro s l
  induction l generalizing s with
  | nil => rfl
  | cons a t ih => simp [serialMap, ih]

/-- `get_value` of `convert_brc` never returns a missing value: absent and
`NaN` cells are replaced by the empty string before any `pd.isna` test. -/
theorem brc_get_value_isna_false (idxs : List (String × Nat))
    (row : List Cell) (k : String) :
    (brc_get_value idxs row k).isna = false := by
  unfold brc_get_value
  cases getA idxs k with
  | none => rfl
  | some i =>
    by_cases hi : i < row.length
    · simp only [hi, if_true]
      cases row.getD i Cell.blank <;> rfl
    · simp [hi, Cell.isna]

/-- Consequently the identifier-absence skip of the brc loop is dead code:
`brcKeep` collapses to the blank-row and header-row tests. -/
theorem brcKeep_eq (idxs : List (String × Nat)) (ir : Nat × List Cell) :
    brcKeep idxs ir = (!rowAllNa ir.2 && !brcIsHeaderRow ir.2) := by
  unfold brcKeep
  rw [brc_get_value_isna_false, brc_get_value_isna_false]
  simp

/-- The rodtep-scroll converter maps a non-empty frame to the fixed header
block plus data rows, so the result is non-empty exactly when the input
was empty on one of its axes. -/
theorem convert_rodtep_scroll_emptyDf (df : DataFrame) :
    (convert_rodtep_scroll df).emptyDf = df.emptyDf := by
  unfold convert_rodtep_scroll
  by_cases h : df.emptyDf = true
  · rw [if_pos h]
  · rw [Bool.not_eq_true] at h
    rw [if_neg (by simp [h]), h]
    simp [DataFrame.emptyDf, scrollHeaderRows, scrollCols]

/-- The igst converter maps a non-empty frame to the fixed header block plus
data rows, so the result is non-empty exactly when the input was empty. -/
theorem convert_igst_scroll_emptyDf (df : DataFrame) :
    (convert_igst_scroll df).emptyDf = df.emptyDf := by
  unfold convert_igst_scroll
  by_cases h : df.emptyDf = true
  · rw [if_pos h]
  · rw [Bool.not_eq_true] at h
    rw [if_neg (by simp [h]), h]
    simp [DataFrame.emptyDf, igstHeaderRows, igstCols]

/-- The scrip converter maps a non-empty frame to the fixed header block plus
data rows, so the result is non-empty exactly when the input was empty. -/
theorem convert_rodtep_scrip_emptyDf (df : DataFrame) :
    (convert_rodtep_scrip df).emptyDf = df.emptyDf := by
  unfold convert_rodtep_scrip
  by_cases h : df.emptyDf = true
  · rw [if_pos h]
  · rw [Bool.not_eq_true] at h
    rw [if_neg (by simp [h]), h]
    simp [DataFrame.emptyDf, scripHeaderRows, scripCols]

/-! ## Claim C1 -/

/-- A rodtep-scroll input whose only row is entirely missing: the converter
skips it and produces zero data rows. -/
def c1Input : DataFrame :=
  ⟨["SB Number", "SB Date", "Scroll Number", "Scroll Date", "C5", "Location",
    "Amount"],
   [[.blank, .blank, .blank, .blank, .blank, .blank, .blank]]⟩

/-- **C1, counterexample.**  The claim asserts that every returned
OutputDataset has at least one data row beyond the fixed header block or the
request fails.  On `c1Input` the rodtep-scroll conversion produces exactly
the three-row header block and no data row, yet the request succeeds: the
orchestrator's `processed_df.empty` test cannot fire because the header
block makes the frame non-empty. -/
theorem c1_counterexample :
    (convert_rodtep_scroll c1Input).rows = scrollHeaderRows ∧
    (app_process [] "rodtep_scroll" [("f.xlsx", c1Input)] none).isOk
      = true := by
  decide

/-- **C1, amended.**  For each of the single-file canonical converting
processes (rodtep_scroll, igst_scroll, rodtep_scrip) the request fails
exactly when the conversion input itself is empty on one of its axes;
whenever the input frame is non-empty the request succeeds, even if every
data row was skipped and the returned OutputDataset consists of the fixed
header block alone. -/
theorem c1_theorem (df : DataFrame) :
    ((app_process [] "rodtep_scroll" [("f.xlsx", df)] none).isOk = false ↔
      df.emptyDf = true) ∧
    ((app_process [] "igst_scroll" [("f.xlsx", df)] none).isOk = false ↔
      df.emptyDf = true) ∧
    ((app_process [] "rodtep_scrip" [("f.xlsx", df)] none).isOk = false ↔
      df.emptyDf = true) := by
  refine ⟨?_, ?_, ?_⟩
  · rw [← convert_rodtep_scroll_emptyDf df]
    have hpe : app_process [] "rodtep_scroll" [("f.xlsx", df)] none =
        (if (convert_rodtep_scroll df).emptyDf then
          .error "Processed data is empty. No data to export."
        else .ok (convert_rodtep_scroll df)) := rfl
    rw [hpe]
    cases hc : (convert_rodtep_scroll df).emptyDf <;>
      simp [hc, Except.isOk, Except.toBool]
  · rw [← convert_igst_scroll_emptyDf df]
    have hpe : app_process [] "igst_scroll" [("f.xlsx", df)] none =
        (if (convert_igst_scroll df).emptyDf then
          .error "Processed data is empty. No data to export."
        else .ok (convert_igst_scroll df)) := rfl
    rw [hpe]
    cases hc : (convert_igst_scroll df).emptyDf <;>
      simp [hc, Except.isOk, Except.toBool]
  · rw [← convert_rodtep_scrip_emptyDf df]
    have hpe : app_process [] "rodtep_scrip" [("f.xlsx", df)] none =
        (if (convert_rodtep_scrip df).emptyDf then
          .error "Processed data is empty. No data to export."
        else .ok (convert_rodtep_scrip df)) := rfl
    rw [hpe]
    cases hc : (convert_rodtep_scrip df).emptyDf <;>
      simp [hc, Except.isOk, Except.toBool]

/-! ## Claim C2 -/

/-- A one-file upload whose table is plainly non-empty. -/
def c2Input : DataFrame := ⟨["A"], [[.str "hello"]]⟩

/-- **C2, counterexample.**  The claim asserts `process_excel` fails for
every unrecognized process-type value; instead, `converters.get` misses and
the raw loaded table is returned as a success. -/
theorem c2_counterexample :
    process_excel [] "unknown_process" [("f.xlsx", c2Input)] none =
      .ok c2Input := rfl

/-- **C2, amended.**  An unrecognized process-type value is not rejected:
with a non-empty upload list `process_excel` returns the first file's loaded
table unchanged (no conversion applied); it fails only when the upload list
is empty. -/
theorem c2_theorem (pm : List (String × String)) (t : String)
    (h : t ∉ ["dbk_disbursement", "dbk_pendency", "brc", "irm",
      "igst_scroll", "rodtep_scroll", "rodtep_scrip"]) :
    process_excel pm t [] none = .error "No file provided" ∧
      ∀ (n : String) (df : DataFrame) (rest : List (String × DataFrame))
        (bt : Option String), process_excel pm t ((n, df) :: rest) bt =
          .ok df := by
  simp only [List.mem_cons, List.not_mem_nil, or_false, not_or] at h
  obtain ⟨h1, h2, h3, h4, h5, h6, h7⟩ := h
  have hm : t ∉ ["dbk_disbursement", "dbk_pendency", "brc"] := by
    simp only [List.mem_cons, List.not_mem_nil, or_false, not_or]
    exact ⟨h1, h2, h3⟩
  refine ⟨?_, ?_⟩
  · unfold process_excel
    rw [if_neg hm]
  · intro n df rest bt
    unfold process_excel
    rw [if_neg hm]
    simp only [if_neg h4, if_neg h5, if_neg h6, if_neg h7]

/-- **C2, witness.**  The amended statement at the concrete process type
`"bogus"` and the concrete non-empty upload list. -/
theorem c2_witness :
    process_excel [] "bogus" [("g.xlsx", c2Input)] none = .ok c2Input :=
  (c2_theorem [] "bogus" (by decide)).2 "g.xlsx" c2Input [] none

/-! ## Claim C3 -/

/-- A dbk-disbursement input whose only row has every field — in particular
both identifying fields (`SB No`, `Custom Scroll No`) — missing. -/
def c3Input : DataFrame :=
  ⟨["SB No", "SB Date", "Custom Scroll No", "Custom Scroll Date", "Location",
    "IgstAmount"],
   [[.blank, .blank, .blank, .blank, .blank, .blank]]⟩

/-- **C3, counterexample.**  The claim asserts that every converter skips a
row whose two identifying fields are both absent.  `convert_dbk_disbursement`
has no skip condition at all: the all-missing row of `c3Input` is emitted as
a canonical data row (serial 1, zero-filled identifiers) after the four-row
header block. -/
theorem c3_counterexample :
    (convert_dbk_disbursement c3Input).rows.drop 4 =
      [[.int 1, .str "", .int 0, .str "", .int 0, .str "", .str "", .str "",
        .int 0]] := by
  decide

/-- **C3, amended.**  The identifier-based skip behaviour differs per
converter.  `convert_dbk_disbursement` and `convert_dbk_pendency` emit one
canonical row for every input row (no skip of any kind), so their outputs
have exactly `header + n` rows.  `convert_rodtep_scroll` and
`convert_igst_scroll` emit exactly one serial-numbered row per kept row,
skipping blank rows, detected header rows, and rows whose two identifying
fields are both absent (`scrollKeep`, `igstKeep`).  `convert_rodtep_scrip`
skips only when all three of scrip number, scroll number and SB number are
absent (`scripKeep`).  `convert_brc` skips blank and header-keyword rows
only: its identifier-absence test is dead code (see `brcKeep_eq`), so rows
with both identifiers missing are still emitted.  `convert_irm` performs no
conversion. -/
theorem c3_theorem (pm : List (String × String)) (bt : Option String)
    (df : DataFrame) :
    (convert_dbk_disbursement df).rows.length =
      (if df.emptyDf then df.rows.length else 4 + df.rows.length) ∧
    (convert_dbk_pendency df).rows.length =
      (if df.emptyDf then df.rows.length else 5 + df.rows.length) ∧
    convert_rodtep_scroll df =
      (if df.emptyDf then df else
        ⟨scrollCols, scrollHeaderRows ++
          serialMap (scrollBuild df (scrollColumnMap df.cols)) 1
            (df.rows.enum.filter (scrollKeep df (scrollColumnMap df.cols)))⟩) ∧
    convert_igst_scroll df =
      (if df.emptyDf then df else
        ⟨igstCols, igstHeaderRows ++
          serialMap (igstBuild df) 1 (df.rows.enum.filter (igstKeep df))⟩) ∧
    convert_rodtep_scrip df =
      (if df.emptyDf then df else
        ⟨scripCols, scripHeaderRows ++
          serialMap (scripBuild df (scripColumnMap df.cols)) 1
            (df.rows.enum.filter (scripKeep df (scripColumnMap df.cols)))⟩) ∧
    convert_brc pm df bt =
      (if df.emptyDf then df else
        ⟨brcCols, brcHeaderRows ++
          (df.rows.enum.filter
            (fun ir => !rowAllNa ir.2 && !brcIsHeaderRow ir.2)).map
            (fun ir => brcBuild pm (brcColumnIndices df.cols) ir.2)⟩) ∧
    convert_irm df = df := by
  by_cases h : df.emptyDf = true
  · refine ⟨?_, ?_, ?_, ?_, ?_, ?_, ?_⟩ <;>
      simp [convert_dbk_disbursement, convert_dbk_pendency,
        convert_rodtep_scroll, convert_igst_scroll, convert_rodtep_scrip,
        convert_brc, convert_irm, h]
  · refine ⟨?_, ?_, ?_, ?_, ?_, ?_, ?_⟩
    · rw [convert_dbk_disbursement, if_neg h, if_neg h]
      simp [emitLoop_eq_filter, serialMap_length, dbkDisbHeaderRows]
      omega
    · rw [convert_dbk_pendency, if_neg h, if_neg h]
      simp [emitLoop_eq_filter, serialMap_length, dbkPendHeaderRows]
      omega
    · rw [convert_rodtep_scroll, if_neg h, if_neg h]
      simp only [emitLoop_eq_filter]
    · rw [convert_igst_scroll, if_neg h, if_neg h]
      rw [emitLoop_eq_filter]
    · rw [convert_rodtep_scrip, if_neg h, if_neg h]
      simp only [emitLoop_eq_filter]
    · rw [convert_brc, if_neg h, if_neg h]
      simp only [emitLoop_eq_filter, serialMap_of_const]
      rw [List.filter_congr (fun a _ => brcKeep_eq (brcColumnIndices df.cols) a)]
    · rw [convert_irm, if_neg h]

/-! ## Claim C4 -/

/-- Two uploads whose first file's key does not exceed the second's keep
their order through the stable sequencing step. -/
theorem sort_pair_of_le {α : Type} (n1 n2 : String) (x y : α)
    (h : extract_file_number n1 ≤ extract_file_number n2) :
    sort_files_by_sequence [(n1, x), (n2, y)] = [(n1, x), (n2, y)] := by
  have hle : fileLe (0, n1, x) (1, n2, y) := by
    unfold fileLe
    rcases Nat.lt_or_ge (extract_file_number n1) (extract_file_number n2)
      with hl | hg
    · exact Or.inl hl
    · exact Or.inr ⟨Nat.le_antisymm h hg, by omega⟩
  unfold sort_files_by_sequence sortFilesAux
  simp [List.enum, List.enumFrom, List.insertionSort, List.orderedInsert, hle]

/-- **C4.**  Merging a 5-row file with a subsequent 5-row file drops exactly
the second file's first row when more than 3 of its string cells contain a
merge header keyword, giving 9 merged rows, and keeps all rows (10) when it
does not. -/
theorem c4_theorem (A B : DataFrame) (r0 : List Cell)
    (restB : List (List Cell)) (hA : A.rows.length = 5)
    (hB : B.rows = r0 :: restB) (hrest : restB.length = 4) :
    ∃ out, merge_excel_files [("a.xlsx", A), ("b.xlsx", B)] = .ok out ∧
      out.rows = A.rows ++
        (if 3 < keywordCellCount r0 then restB else r0 :: restB) ∧
      out.rows.length = (if 3 < keywordCellCount r0 then 9 else 10) := by
  have hsort := sort_pair_of_le "a.xlsx" "b.xlsx" A B (by decide)
  refine ⟨⟨A.cols, A.rows ++ mergeTailFile B⟩, ?_, ?_, ?_⟩
  · unfold merge_excel_files
    rw [hsort]
    simp
  · show A.rows ++ mergeTailFile B = _
    unfold mergeTailFile
    rw [hB]
  · show (A.rows ++ mergeTailFile B).length = _
    unfold mergeTailFile
    rw [hB]
    by_cases hk : 3 < keywordCellCount r0
    · simp [hk, hA, hrest]
    · simp [hk, hA, hrest]

/-- A 4-cell row in which every cell contains a merge header keyword. -/
def c4HeaderRow : List Cell :=
  [.str "BRC Number", .str "SB Date", .str "Port of export",
   .str "Invoice count"]

def c4DataRow : List Cell := [.int 1, .int 2, .int 3, .int 4]

def c4FileA : DataFrame :=
  ⟨["a", "b", "c", "d"],
   [c4DataRow, c4DataRow, c4DataRow, c4DataRow, c4DataRow]⟩

def c4FileB : DataFrame :=
  ⟨["a", "b", "c", "d"],
   c4HeaderRow :: [c4DataRow, c4DataRow, c4DataRow, c4DataRow]⟩

/-- **C4, witness.**  The merge theorem at a concrete pair of files whose
second file starts with a 4-keyword header row. -/
theorem c4_witness :
    ∃ out, merge_excel_files [("a.xlsx", c4FileA), ("b.xlsx", c4FileB)] =
        .ok out ∧
      out.rows = c4FileA.rows ++
        (if 3 < keywordCellCount c4HeaderRow then
          [c4DataRow, c4DataRow, c4DataRow, c4DataRow]
        else c4HeaderRow :: [c4DataRow, c4DataRow, c4DataRow, c4DataRow]) ∧
      out.rows.length =
        (if 3 < keywordCellCount c4HeaderRow then 9 else 10) :=
  c4_theorem c4FileA c4FileB c4HeaderRow
    [c4DataRow, c4DataRow, c4DataRow, c4DataRow] (by decide) rfl (by decide)

/-! ## Claim C5 -/

theorem takeWhile_nil_of_all {p : Char → Bool} {l : List Char}
    (h : ∀ c ∈ l, p c = false) : l.takeWhile p = [] := by
  cases l with
  | nil => rfl
  | cons c t => simp [List.takeWhile_cons, h c (List.mem_cons_self c t)]

/-- A digit-free string cannot parse as a Python float (magnitude part). -/
theorem parsePyFloatBody_no_digit (l : List Char)
    (h : ∀ c ∈ l, c.isDigit = false) : parsePyFloatBody l = none := by
  have ht : l.takeWhile Char.isDigit = [] := takeWhile_nil_of_all h
  cases l with
  | nil => rfl
  | cons c t =>
    simp only [parsePyFloatBody, ht, List.length_nil, List.drop_zero]
    by_cases hc : c = '.'
    · subst hc
      cases t with
      | nil => decide
      | cons d t2 =>
        have hd : d.isDigit = false :=
          h d (List.mem_cons_of_mem _ (List.mem_cons_self d t2))
        simp [hd]
    · split
      · rfl
      · next heq =>
        exfalso
        rw [List.cons.injEq] at heq
        exact hc heq.1
      · rfl

/-- A digit-free string cannot parse as a Python float. -/
theorem parsePyFloat_no_digit (l : List Char)
    (h : ∀ c ∈ l, c.isDigit = false) : parsePyFloat l = none := by
  unfold parsePyFloat
  split
  · rw [parsePyFloatBody_no_digit _
      (fun c hc => h c (List.mem_of_mem_tail hc))]
    rfl
  · exact parsePyFloatBody_no_digit _ h

theorem mem_pyStripChars {c : Char} {l : List Char}
    (h : c ∈ pyStripChars l) : c ∈ l := by
  unfold pyStripChars at h
  rw [List.mem_reverse] at h
  have h1 := (List.dropWhile_sublist _).subset h
  rw [List.mem_reverse] at h1
  exact (List.dropWhile_sublist _).subset h1

theorem mem_removeChar {c x : Char} {l : List Char}
    (h : c ∈ removeChar x l) : c ∈ l :=
  (List.mem_filter.mp h).1

/-- The igst/rodtep-scroll number normalizer sends every digit-free string
to the empty-string sentinel. -/
theorem inr_no_digit (s : String) (h : ∀ c ∈ s.data, c.isDigit = false) :
    inr_convert_to_number (.str s) = .str "" := by
  have hv : ∀ c ∈ pyStripChars (removeChar ',' (removeChar '₹' s.data)),
      c.isDigit = false := fun c hc =>
    h c (mem_removeChar (mem_removeChar (mem_pyStripChars hc)))
  simp only [inr_convert_to_number]
  split
  · rfl
  · rw [parsePyFloat_no_digit _ hv]

/-- The brc number normalizer sends every digit-free string to the
empty-string sentinel. -/
theorem brc_no_digit (s : String) (h : ∀ c ∈ s.data, c.isDigit = false) :
    brc_convert_to_number (.str s) = .str "" := by
  have hv : ∀ c ∈ pyStripChars (removeChar ',' s.data), c.isDigit = false :=
    fun c hc => h c (mem_removeChar (mem_pyStripChars hc))
  simp only [brc_convert_to_number]
  split
  · rfl
  · rw [parsePyFloat_no_digit _ hv]

/-- The dbk number normalizer sends every digit-free string to `None`. -/
theorem dbk_no_digit (s : String) (h : ∀ c ∈ s.data, c.isDigit = false) :
    dbk_convert_to_number (.str s) = none := by
  have hv : ∀ c ∈ s.data.filter (fun c => c.isDigit || c = '.' || c = '-'),
      c.isDigit = false := fun c hc => h c (List.mem_filter.mp hc).1
  simp only [dbk_convert_to_number]
  split
  · rfl
  · rw [parsePyFloat_no_digit _ hv]

/-- The scrip number normalizer sends every digit-free string to the
empty-string sentinel. -/
theorem scrip_no_digit (s : String) (h : ∀ c ∈ s.data, c.isDigit = false) :
    scrip_convert_to_number (.str s) = .str "" := by
  simp only [scrip_convert_to_number]
  split
  · rfl
  · split
    · rfl
    · rw [parsePyFloat_no_digit _ ?hv]
      case hv =>
        intro c hc
        have h1 := (List.mem_filter.mp hc).1
        have h2 := mem_removeChar (mem_pyStripChars h1)
        have h3 := (List.mem_filter.mp h2).1
        exact h c (mem_pyStripChars h3)

/-- **C5, counterexample.**  The claim asserts that `NormalizeNumber` strips
currency symbols in every converter and that unparseable or empty input
yields the empty-string sentinel in every converter.  The brc variant strips
only commas, so `"₹1,234.00"` falls to the sentinel instead of `1234.0`;
and the dbk variant yields `None` — not the empty string — for the empty
input (the dbk row builders then render that `None` as `0`). -/
theorem c5_counterexample :
    brc_convert_to_number (.str "₹1,234.00") = .str "" ∧
    dbk_convert_to_number (.str "") = none := by
  decide

/-- **C5, amended.**  The igst/rodtep-scroll and scrip variants strip `₹`
(the scrip variant also `$€£¥`) and thousands separators, mapping
`"₹1,234.00"` to the integer `1234` (numerically `1234.0`) and `"1,000"` to
the integer `1000`; the dbk variant reaches the same values by discarding
every character outside `[0-9.-]` but uses `None` as its unparseable
sentinel, rendered as `0` in the output row; the brc variant strips only
commas, so `"₹1,234.00"` yields its empty-string sentinel.  Empty input
yields the sentinel in every variant, and more generally so does every
digit-free string. -/
theorem c5_theorem :
    (inr_convert_to_number (.str "₹1,234.00") = .int 1234 ∧
    scrip_convert_to_number (.str "₹1,234.00") = .int 1234 ∧
    dbk_convert_to_number (.str "₹1,234.00") = some (.int 1234) ∧
    brc_convert_to_number (.str "₹1,234.00") = .str "" ∧
    inr_convert_to_number (.str "1,000") = .int 1000 ∧
    scrip_convert_to_number (.str "1,000") = .int 1000 ∧
    dbk_convert_to_number (.str "1,000") = some (.int 1000) ∧
    brc_convert_to_number (.str "1,000") = .int 1000 ∧
    inr_convert_to_number (.str "") = .str "" ∧
    scrip_convert_to_number (.str "") = .str "" ∧
    brc_convert_to_number (.str "") = .str "" ∧
    dbk_convert_to_number (.str "") = none) ∧
    ∀ s : String, (∀ c ∈ s.data, c.isDigit = false) →
      inr_convert_to_number (.str s) = .str "" ∧
      brc_convert_to_number (.str s) = .str "" ∧
      scrip_convert_to_number (.str s) = .str "" ∧
      dbk_convert_to_number (.str s) = none := by
  refine ⟨by decide, ?_⟩
  intro s h
  exact ⟨inr_no_digit s h, brc_no_digit s h, scrip_no_digit s h,
    dbk_no_digit s h⟩

/-- **C5, witness.**  The universally quantified part of the amended claim
at the concrete digit-free string `"n/a"`. -/
theorem c5_witness :
    (∀ c ∈ ("n/a" : String).data, c.isDigit = false) ∧
    (inr_convert_to_number (.str "n/a") = .str "" ∧
     brc_convert_to_number (.str "n/a") = .str "" ∧
     scrip_convert_to_number (.str "n/a") = .str "" ∧
     dbk_convert_to_number (.str "n/a") = none) :=
  ⟨by decide, c5_theorem.2 "n/a" (by decide)⟩

/-! ## Claim C6 -/

/-- **C6, counterexample.**  The claim asserts that a query matching neither
the synonym table (exactly or by substring) nor the 3-uppercase-letter shape
is returned unchanged.  `"qqq1"` matches nothing, yet the function returns
its upper-cased form `"QQQ1"`, not the original query. -/
theorem c6_counterexample :
    get_currency_code (.str "qqq1") = "QQQ1" ∧
    currency_map.find? (fun p => p.1 == "QQQ1") = none ∧
    currency_map.find? (fun p =>
      strContains "QQQ1" p.1 || strContains p.1 "QQQ1") = none ∧
    ("QQQ1" : String) ≠ "qqq1" := by
  decide

/-- **C6, amended.**  `get_currency_code` upper-cases and trims the query,
returns the mapped code on an exact match against the synonym table, else
the code of the first bidirectional substring match in table order; for
every query matching neither, it returns the upper-cased trimmed query —
whether or not it is three uppercase letters — rather than the query
unchanged. -/
theorem c6_theorem (s : String) :
    get_currency_code (.str s) =
      (if s = "" then ""
       else if currencyNorm (.str s) = "" then ""
       else
         match currency_map.find? (fun p => p.1 == currencyNorm (.str s)) with
         | some kc => kc.2
         | none =>
           match currency_map.find? (fun p =>
               strContains (currencyNorm (.str s)) p.1 ||
               strContains p.1 (currencyNorm (.str s))) with
           | some kc => kc.2
           | none => currencyNorm (.str s)) := by
  by_cases hs : s = ""
  · subst hs; rfl
  · have hcond : (!Cell.pyTruthy (.str s) || Cell.isna (.str s)) = false := by
      simp [Cell.pyTruthy, Cell.isna, hs]
    unfold get_currency_code
    rw [if_neg (by simp [hcond]), if_neg hs]
    by_cases hn : currencyNorm (.str s) = ""
    · rw [if_pos hn, if_pos hn]
    · rw [if_neg hn, if_neg hn]
      cases currency_map.find? (fun p => p.1 == currencyNorm (.str s)) with
      | some kc => rfl
      | none =>
        cases currency_map.find? (fun p =>
            strContains (currencyNorm (.str s)) p.1 ||
            strContains p.1 (currencyNorm (.str s))) with
        | some kc => rfl
        | none => simp

/-! ## Claim C7 -/

theorem dropWhile_eq_self_of_all {p : Char → Bool} {l : List Char}
    (h : ∀ c ∈ l, p c = false) : l.dropWhile p = l := by
  cases l with
  | nil => rfl
  | cons c t => simp [List.dropWhile_cons, h c (List.mem_cons_self c t)]

/-- ASCII-alphanumeric characters are not Python whitespace. -/
theorem not_space_of_alnum {c : Char} (h : c.isAlphanum = true) :
    pyIsSpace c = false := by
  by_contra hc
  rw [Bool.not_eq_false] at hc
  unfold pyIsSpace at hc
  simp only [Bool.or_eq_true, decide_eq_true_eq] at hc
  rcases hc with ((((h1 | h1) | h1) | h1) | h1) | h1 <;> subst h1 <;>
    exact absurd h (by decide)

/-- `str.strip()` is the identity on all-alphanumeric strings. -/
theorem pyStrip_eq_self_of_alnum {s : String}
    (h : ∀ c ∈ s.data, c.isAlphanum = true) : pyStrip s = s := by
  have h1 : ∀ c ∈ s.data, pyIsSpace c = false := fun c hc =>
    not_space_of_alnum (h c hc)
  unfold pyStrip pyStripChars
  rw [dropWhile_eq_self_of_all h1,
    dropWhile_eq_self_of_all (fun c hc => h1 c (List.mem_reverse.mp hc)),
    List.reverse_reverse]

/-- The canonical-code shape test of `get_port_code` (converters.py:184):
six characters, all alphanumeric, the first two alphabetic. -/
def isCanonicalPortCode (q : String) : Prop :=
  q.length = 6 ∧ q.data.all Char.isAlphanum = true ∧
    (q.data.take 2).all Char.isAlpha = true ∧
    (q.data.drop 2).all Char.isAlphanum = true

instance (q : String) : Decidable (isCanonicalPortCode q) := by
  unfold isCanonicalPortCode
  exact inferInstance

/-- **C7.**  `get_port_code` is a pass-through identity on every query
already shaped like a canonical port code, regardless of the loaded port
mapping: the shape test precedes every lookup stage. -/
theorem c7_theorem (q : String) (pm : List (String × String))
    (h : isCanonicalPortCode q) : get_port_code (.str q) pm = q := by
  obtain ⟨h1, h2, h3, h4⟩ := h
  have hall : ∀ c ∈ q.data, c.isAlphanum = true := fun c hc =>
    List.all_eq_true.mp h2 c hc
  have hne : q ≠ "" := by
    intro he
    subst he
    simp [String.length] at h1
  have hcond : (!Cell.pyTruthy (.str q) || Cell.isna (.str q)) = false := by
    simp [Cell.pyTruthy, Cell.isna, hne]
  unfold get_port_code
  rw [if_neg (by simp [hcond])]
  simp only [pyStr]
  rw [pyStrip_eq_self_of_alnum hall, if_neg hne, if_pos ⟨h1, h2, h3, h4⟩]

/-- **C7, witness.**  The pass-through at `"INNSA1"` against a mapping that
would send an exact alias match of `"INNSA1"` elsewhere: the shape test
wins. -/
theorem c7_witness :
    isCanonicalPortCode "INNSA1" ∧
    get_port_code (.str "INNSA1") [("INNSA1", "INBOM4")] = "INNSA1" :=
  ⟨by decide, c7_theorem "INNSA1" [("INNSA1", "INBOM4")] (by decide)⟩

/-! ## Claim C8 -/

/-- **C8, counterexample.**  The claim asserts that every converter's date
normalizer maps Excel serial `0` to `30-Dec-1899`; `convert_rodtep_scroll`'s
`convert_dot_date` guards its numeric branch with `date_value > 0` and
returns the empty string for serial `0`. -/
theorem c8_counterexample :
    rodtep_convert_dot_date (.int 0) = "" ∧
    ("" : String) ≠ "30-Dec-1899" := ⟨by decide, by decide⟩

/-- **C8, amended.**  For every integer Excel serial `n` within pandas'
representable range, the dbk, brc, igst and scrip normalizers map serial `n`
to 1899-12-30 plus `n` days formatted `DD-Mon-YYYY` (`fmtSerial n`;
dbk-pendency produces the same string upper-cased): serial 0 is 30-Dec-1899
and serial 1 is 31-Dec-1899, with the legacy epoch and no leap-year
correction (serial 60 is 28-Feb-1900 and serial 61 is 01-Mar-1900).
`convert_rodtep_scroll`'s `convert_dot_date` agrees on every positive
in-range serial but yields the empty string for every serial `≤ 0`. -/
theorem c8_theorem :
    (∀ n : Int, pandasSerialOk n = true →
      dbk_convert_and_format_date (.int n) = fmtSerial n ∧
      pendency_convert_and_format_date (.int n) = pyUpper (fmtSerial n) ∧
      brc_convert_and_format_date (.int n) = fmtSerial n ∧
      igst_convert_and_format_date (.int n) = fmtSerial n ∧
      scrip_convert_and_format_date (.int n) = fmtSerial n) ∧
    (∀ n : Int, 0 < n → pandasSerialOk n = true →
      rodtep_convert_dot_date (.int n) = fmtSerial n) ∧
    (∀ n : Int, n ≤ 0 → rodtep_convert_dot_date (.int n) = "") ∧
    (fmtSerial 0 = "30-Dec-1899" ∧ fmtSerial 1 = "31-Dec-1899" ∧
      fmtSerial 60 = "28-Feb-1900" ∧ fmtSerial 61 = "01-Mar-1900" ∧
      pendency_convert_and_format_date (.int 0) = "30-DEC-1899" ∧
      rodtep_convert_dot_date (.int 0) = "") := by
  refine ⟨?_, ?_, ?_, by decide⟩
  · intro n h
    refine ⟨?_, ?_, ?_, ?_, ?_⟩ <;>
      simp [dbk_convert_and_format_date, pendency_convert_and_format_date,
        brc_convert_and_format_date, igst_convert_and_format_date,
        scrip_convert_and_format_date, convert_and_format_date_core, h]
  · intro n hp h
    simp [rodtep_convert_dot_date, hp, h]
  · intro n hn
    have hnp : ¬(0 < n) := by omega
    simp [rodtep_convert_dot_date, hnp]

/-- **C8, witness.**  The universally quantified parts of the amended claim
at the concrete serials 1 (all six normalizers) and 0 (the dot-date
guard). -/
theorem c8_witness :
    (pandasSerialOk 1 = true ∧
      (dbk_convert_and_format_date (.int 1) = fmtSerial 1 ∧
       pendency_convert_and_format_date (.int 1) = pyUpper (fmtSerial 1) ∧
       brc_convert_and_format_date (.int 1) = fmtSerial 1 ∧
       igst_convert_and_format_date (.int 1) = fmtSerial 1 ∧
       scrip_convert_and_format_date (.int 1) = fmtSerial 1)) ∧
    ((0 : Int) < 1 ∧ pandasSerialOk 1 = true ∧
      rodtep_convert_dot_date (.int 1) = fmtSerial 1) ∧
    ((0 : Int) ≤ 0 ∧ rodtep_convert_dot_date (.int 0) = "") :=
  ⟨⟨by decide, c8_theorem.1 1 (by decide)⟩,
   ⟨by decide, by decide, c8_theorem.2.1 1 (by decide) (by decide)⟩,
   ⟨by decide, c8_theorem.2.2.1 0 (by decide)⟩⟩

/-! ## Claim C9 -/

/-- **C9.**  `sort_files_by_sequence` stable-sorts the uploads ascending by
the `(<digits>)` token extracted from each filename stem, ties broken by
original upload order: the annotated sort is a permutation of the
position-annotated uploads and is strictly increasing in the lexicographic
(sequence number, original position) order, which determines it uniquely;
and the spec's example reorders as stated. -/
theorem c9_theorem :
    sort_files_by_sequence
        [("x(2).xlsx", 0), ("x(1).xlsx", 1), ("x.xlsx", 2)] =
      [("x.xlsx", 2), ("x(1).xlsx", 1), ("x(2).xlsx", 0)] ∧
    ∀ (α : Type) (l : List (String × α)),
      sort_files_by_sequence l = (sortFilesAux l).map (fun p => p.2) ∧
      (sortFilesAux l).Perm l.enum ∧
      List.Pairwise
        (fun a b =>
          extract_file_number a.2.1 < extract_file_number b.2.1 ∨
            (extract_file_number a.2.1 = extract_file_number b.2.1 ∧
              a.1 < b.1))
        (sortFilesAux l) := by
  constructor
  · decide
  · intro α l
    have hperm : (sortFilesAux l).Perm l.enum :=
      List.perm_insertionSort fileLe l.enum
    refine ⟨rfl, hperm, ?_⟩
    have hs : List.Pairwise fileLe (sortFilesAux l) :=
      List.sorted_insertionSort fileLe l.enum
    have hnodup : ((sortFilesAux l).map Prod.fst).Nodup :=
      ((hperm.map Prod.fst).nodup_iff).mpr (List.nodup_enum_map_fst l)
    have hne : List.Pairwise (fun a b : Nat × String × α => a.1 ≠ b.1)
        (sortFilesAux l) := List.pairwise_map.mp hnodup
    refine (hs.and hne).imp ?_
    intro a b hab
    obtain ⟨hab1, hab2⟩ := hab
    rcases hab1 with h1 | ⟨heq, hle⟩
    · exact Or.inl h1
    · exact Or.inr ⟨heq, lt_of_le_of_ne hle hab2⟩

/-! ## Claim C10 -/

/-- **C10.**  `extract_file_number` only examines the part of the filename
before the first dot: whenever a `(<digits>)` token exists in the full name
but not in the stem, the extracted number is 0, so such a file sorts as if
it had no sequence token.  Concretely, `"report.v2(3).xlsx"` extracts 0
while `"report(3).xlsx"` extracts 3. -/
theorem c10_theorem :
    (∀ f : String, parenNumber f.data ≠ none →
      parenNumber (splitHeadDot f).data = none → extract_file_number f = 0) ∧
    extract_file_number "report.v2(3).xlsx" = 0 ∧
    extract_file_number "report(3).xlsx" = 3 := by
  refine ⟨?_, by decide, by decide⟩
  intro f _ h2
  unfold extract_file_number
  rw [h2]
  rfl

/-- **C10, witness.**  The stem-only rule at `"report.v2(3).xlsx"`: the full
name carries a token, the stem does not, and the extraction yields 0. -/
theorem c10_witness :
    (parenNumber "report.v2(3).xlsx".data ≠ none ∧
      parenNumber (splitHeadDot "report.v2(3).xlsx").data = none) ∧
    extract_file_number "report.v2(3).xlsx" = 0 :=
  ⟨⟨by decide, by decide⟩,
    c10_theorem.1 "report.v2(3).xlsx" (by decide) (by decide)⟩

end CIPDoc
